import Mathlib

/-!
# Dwello API: request handlers over a two-collection document store

A shallow embedding of `handlers/user_handler.go` and
`handlers/property_handler.go` together with the struct declarations of
`models/`.  A handler is a function from the store, the request inputs
(path parameter, query parameters, parsed body) and the values the
environment supplies (`primitive.NewObjectID()`, `utils.Now()`) to a
response and the store after the call.

The document store is a pair of lists in insertion order.  `InsertOne` fails
on a duplicate `_id`, a `$set` that would change `_id` fails, `Find` fails on
`$in` with a nil slice, on a negative skip and on a limit whose negation
overflows, and an `UpdateOne` / `DeleteOne` whose filter matches nothing
succeeds without a change, as MongoDB and its Go driver define them.

A store call may also not be served, by a timeout or a lost connection: it
then returns an error, and a write has written nothing.  For the handlers
that write, which of the store calls of a handler call fail is an input,
`failing`, the list of their indices: `RegisterUserWith failing` is
`RegisterUser` of the source, and `RegisterUser` here is the call in which
every store call is served, likewise for the other handlers that write.  The handlers that only read
leave the store as it is and are given with their calls served.  `utils.Now`
is not among the source files; its result is an argument of the handlers that
call it.
-/

namespace Dwello

/-- A `primitive.ObjectID`: twelve bytes, read as a big-endian number.
`primitive.NilObjectID` is `0`. -/
abbrev ObjectID := Nat

/-- A `primitive.DateTime`: milliseconds since the Unix epoch. -/
abbrev DateTime := Int

/-! ## models/user.go, models/property.go -/

/-- The Go struct `models.User`.  A nil slice and an empty slice are both the
empty list: the handlers only take `len` of them and both are dropped by
`omitempty`. -/
structure User where
  ID : ObjectID
  Email : String
  Name : String
  ProfilePic : String
  Location : String
  PreferredLocations : List String
  PostedProperties : List ObjectID
  LikedProperties : List ObjectID
  RentedProperties : List ObjectID
  RentalRequests : List ObjectID
  CreatedAt : DateTime
  UpdatedAt : DateTime
deriving DecidableEq, Repr

/-- The Go struct `models.Property`.  `Price` is a `float64` that arrives as a
JSON number, hence a finite value, embedded in the rationals. -/
structure Property where
  ID : ObjectID
  Title : String
  Description : String
  Price : ℚ
  Location : String
  OwnerEmail : String
  OwnerName : String
  OwnerPic : String
  IsRented : Bool
  RentedByEmail : String
  RentalRequests : List ObjectID
  Thumbnail : String
  Pictures : List String
  LikedBy : List String
  CreatedAt : DateTime
  UpdatedAt : DateTime
deriving DecidableEq, Repr

/-- A document of the `users` collection, keyed by the `bson` tags of
`models.User`.  `preferred_locations`, `posted_properties` and
`liked_properties` are `none` while the field is absent from the document
(`omitempty` drops an empty slice on insert) and `some` once an update wrote
it: `GetHomescreenProperties`, `GetPostedProperties` and `GetLikedProperties`
behave differently on an absent field.  For the other `omitempty` fields the
empty value stands for an absent field, which no handler can tell apart. -/
structure UserDoc where
  _id : ObjectID
  email : String
  name : String
  profile_pic : String
  location : String
  preferred_locations : Option (List String)
  posted_properties : Option (List ObjectID)
  liked_properties : Option (List ObjectID)
  rented_properties : List ObjectID
  rental_requests : List ObjectID
  created_at : DateTime
  updated_at : DateTime
deriving DecidableEq, Repr

/-- A document of the `properties` collection, keyed by the `bson` tags of
`models.Property`, plus `rented_by_id`, which `HandleRentalRequest` writes
with `$set` although the Go struct has no such field.  `rental_requests` is
`none` while the field is absent (the aggregation of
`GetRentalRequestsForUserProperties` tells an absent field from an empty
array); for the other `omitempty` fields the empty value stands for an absent
field. -/
structure PropertyDoc where
  _id : ObjectID
  title : String
  description : String
  price : ℚ
  location : String
  owner_email : String
  owner_name : String
  owner_pic : String
  is_rented : Bool
  rented_by_email : String
  rental_requests : Option (List ObjectID)
  thumbnail : String
  pictures : List String
  liked_by : List String
  created_at : DateTime
  updated_at : DateTime
  rented_by_id : Option ObjectID
deriving DecidableEq, Repr

/-- The elements of a property document's `rental_requests` array, none when
the field is absent. -/
def PropertyDoc.requests (d : PropertyDoc) : List ObjectID :=
  d.rental_requests.getD []

/-- The elements of a user document's `liked_properties` array, none when the
field is absent. -/
def UserDoc.liked (u : UserDoc) : List ObjectID :=
  u.liked_properties.getD []

/-- The elements of a user document's `posted_properties` array, none when
the field is absent. -/
def UserDoc.posted (u : UserDoc) : List ObjectID :=
  u.posted_properties.getD []

/-- Marshalling a `models.User` for `InsertOne`. -/
def encodeUser (u : User) : UserDoc :=
  { _id := u.ID, email := u.Email, name := u.Name, profile_pic := u.ProfilePic,
    location := u.Location,
    preferred_locations := if u.PreferredLocations = [] then none else some u.PreferredLocations,
    posted_properties := if u.PostedProperties = [] then none else some u.PostedProperties,
    liked_properties := if u.LikedProperties = [] then none else some u.LikedProperties,
    rented_properties := u.RentedProperties, rental_requests := u.RentalRequests,
    created_at := u.CreatedAt, updated_at := u.UpdatedAt }

/-- `Decode(&user)` into a zero-valued `models.User`. -/
def decodeUser (d : UserDoc) : User :=
  { ID := d._id, Email := d.email, Name := d.name, ProfilePic := d.profile_pic,
    Location := d.location, PreferredLocations := d.preferred_locations.getD [],
    PostedProperties := d.posted, LikedProperties := d.liked,
    RentedProperties := d.rented_properties, RentalRequests := d.rental_requests,
    CreatedAt := d.created_at, UpdatedAt := d.updated_at }

/-- Marshalling a `models.Property` for `InsertOne`. -/
def encodeProperty (p : Property) : PropertyDoc :=
  { _id := p.ID, title := p.Title, description := p.Description, price := p.Price,
    location := p.Location, owner_email := p.OwnerEmail, owner_name := p.OwnerName,
    owner_pic := p.OwnerPic, is_rented := p.IsRented, rented_by_email := p.RentedByEmail,
    rental_requests := if p.RentalRequests = [] then none else some p.RentalRequests,
    thumbnail := p.Thumbnail, pictures := p.Pictures, liked_by := p.LikedBy,
    created_at := p.CreatedAt, updated_at := p.UpdatedAt, rented_by_id := none }

/-- `Decode(&property)` into a `models.Property`: `rented_by_id` has no field
to land in. -/
def decodeProperty (d : PropertyDoc) : Property :=
  { ID := d._id, Title := d.title, Description := d.description, Price := d.price,
    Location := d.location, OwnerEmail := d.owner_email, OwnerName := d.owner_name,
    OwnerPic := d.owner_pic, IsRented := d.is_rented, RentedByEmail := d.rented_by_email,
    RentalRequests := d.requests, Thumbnail := d.thumbnail, Pictures := d.pictures,
    LikedBy := d.liked_by, CreatedAt := d.created_at, UpdatedAt := d.updated_at }

/-! ## The document store -/

/-- The two collections of database `dwello`, each in insertion order. -/
structure Store where
  users : List UserDoc
  properties : List PropertyDoc
deriving DecidableEq, Repr

/-- The store before any request. -/
def Store.empty : Store := ⟨[], []⟩

/-- Errors a store call returns; `unavailable` is that of a call the store did
not serve. -/
inductive StoreErr where
  | duplicateKey
  | immutableField
  | badValue
  | unavailable
deriving DecidableEq, Repr

/-- Whether the store call with index `i` fails, the store calls of one
handler call, reads and writes, being counted from zero in source order. -/
def callFails (failing : List Nat) (i : Nat) : Bool := failing.contains i

/-- What `FindOne(...).Decode(&x)` leaves to a handler that tests its error
for `nil` only: the document, when the call is served and matches one, and
no document both when the call matches none and when it fails. -/
def found {α : Type} (fails : Bool) (r : Option α) : Option α :=
  if fails then none else r

/-- Apply `f` to the first element that satisfies `p`: the document an
`UpdateOne` with that filter modifies. -/
def updateFirst {α : Type} (p : α → Bool) (f : α → α) : List α → List α
  | [] => []
  | x :: xs => if p x then f x :: xs else x :: updateFirst p f xs

/-- The operator `$addToSet` on an array. -/
def addToSet {α : Type} [DecidableEq α] (a : α) (l : List α) : List α :=
  if a ∈ l then l else l ++ [a]

/-- The operator `$pull` on an array: every element equal to `a` goes.  On an
absent field `$pull` does nothing, so on an optional array it is mapped. -/
def pull {α : Type} [DecidableEq α] (a : α) (l : List α) : List α :=
  l.filter (fun x => decide (x ≠ a))

/-- `db.UserCollection().FindOne(ctx, filter)`, `none` for `ErrNoDocuments`. -/
def Store.findOneUser (s : Store) (filter : UserDoc → Bool) : Option UserDoc :=
  s.users.find? filter

/-- `db.UserCollection().InsertOne`; with `fails` the call is not served. -/
def Store.insertOneUser (s : Store) (fails : Bool) (d : UserDoc) : Except StoreErr Store :=
  if fails then .error .unavailable
  else if s.users.any (fun x => x._id == d._id) then .error .duplicateKey
  else .ok { s with users := s.users ++ [d] }

/-- `db.UserCollection().UpdateOne(ctx, filter, update)`; with `fails` the
call is not served. -/
def Store.updateOneUser (s : Store) (fails : Bool) (filter : UserDoc → Bool)
    (update : UserDoc → UserDoc) : Except StoreErr Store :=
  if fails then .error .unavailable
  else .ok { s with users := updateFirst filter update s.users }

/-- `db.PropertyCollection().FindOne(ctx, filter)`. -/
def Store.findOneProperty (s : Store) (filter : PropertyDoc → Bool) : Option PropertyDoc :=
  s.properties.find? filter

/-- `db.PropertyCollection().Find(ctx, filter)` followed by `cursor.All`. -/
def Store.findProperties (s : Store) (filter : PropertyDoc → Bool) : List PropertyDoc :=
  s.properties.filter filter

/-- `db.PropertyCollection().InsertOne`; with `fails` the call is not
served. -/
def Store.insertOneProperty (s : Store) (fails : Bool) (d : PropertyDoc) :
    Except StoreErr Store :=
  if fails then .error .unavailable
  else if s.properties.any (fun x => x._id == d._id) then .error .duplicateKey
  else .ok { s with properties := s.properties ++ [d] }

/-- `db.PropertyCollection().UpdateOne(ctx, filter, update)`; with `fails` the
call is not served. -/
def Store.updateOneProperty (s : Store) (fails : Bool) (filter : PropertyDoc → Bool)
    (update : PropertyDoc → PropertyDoc) : Except StoreErr Store :=
  if fails then .error .unavailable
  else .ok { s with properties := updateFirst filter update s.properties }

/-- `db.PropertyCollection().DeleteOne(ctx, filter)`; with `fails` the call is
not served. -/
def Store.deleteOneProperty (s : Store) (fails : Bool) (filter : PropertyDoc → Bool) :
    Except StoreErr Store :=
  if fails then .error .unavailable
  else .ok { s with properties := s.properties.eraseP filter }

/-- The filter `bson.M{"email": email}`. -/
def emailIs (email : String) (d : UserDoc) : Bool := d.email == email

/-- The filter `bson.M{"_id": id}` on users. -/
def userIdIs (id : ObjectID) (d : UserDoc) : Bool := d._id == id

/-- The filter `bson.M{"_id": id}` on properties. -/
def propertyIdIs (id : ObjectID) (d : PropertyDoc) : Bool := d._id == id

/-! ## Responses -/

/-- The JSON value a handler writes.  `joined` is the result of the
aggregation of `GetRentalRequestsForUserProperties`: each property document
with its `requesting_users`. -/
inductive Payload where
  | error (msg : String)
  | message (msg : String)
  | user (u : User)
  | property (p : Property)
  | properties (ps : List Property)
  | joined (rows : List (PropertyDoc × List UserDoc))
deriving DecidableEq, Repr

/-- The status code and body of a response. -/
structure Response where
  status : Nat
  body : Payload
deriving DecidableEq, Repr

/-! ## handlers/user_handler.go -/

/-- The assignments `RegisterUser` makes to the parsed body of a new user:
a fresh id, empty `PostedProperties` and `LikedProperties`, and one timestamp
for `CreatedAt` and `UpdatedAt`. -/
def newUser (user : User) (newID : ObjectID) (now : DateTime) : User :=
  { user with
    ID := newID, PostedProperties := [], LikedProperties := [],
    CreatedAt := now, UpdatedAt := now }

/-- The handler `RegisterUser`.  `body` is what `c.BodyParser(&user)` yields,
`none` on a parse error (whose response also carries the parser's message),
`newID` is the result of `primitive.NewObjectID()`, `now` that of
`utils.Now()`, and `failing` the indices of the store calls that fail: 0 is
the lookup, whose error the handler tests for `nil` only, so that a failed
lookup leads to the insert as an empty one does, and 1 the insert. -/
def RegisterUserWith (failing : List Nat) (s : Store) (body : Option User)
    (newID : ObjectID) (now : DateTime) : Response × Store :=
  match body with
  | none => (⟨400, .error "Invalid body"⟩, s)
  | some user =>
    match found (callFails failing 0) (s.findOneUser (emailIs user.Email)) with
    | some existing => (⟨200, .user (decodeUser existing)⟩, s)
    | none =>
      let user := newUser user newID now
      match s.insertOneUser (callFails failing 1) (encodeUser user) with
      | .error _ => (⟨500, .error "Failed to register user"⟩, s)
      | .ok s1 => (⟨201, .user user⟩, s1)

/-- `RegisterUser` with every store call served. -/
def RegisterUser (s : Store) (body : Option User) (newID : ObjectID) (now : DateTime) :
    Response × Store :=
  RegisterUserWith [] s body newID now

/-- The handler `GetUserByEmail`. -/
def GetUserByEmail (s : Store) (email : String) : Response :=
  match s.findOneUser (emailIs email) with
  | none => ⟨404, .error "User not found"⟩
  | some d => ⟨200, .user (decodeUser d)⟩

/-- The handler `UpdateUserLocation`; `body` is the parsed `location` of the
payload. -/
def UpdateUserLocationWith (failing : List Nat) (s : Store) (email : String)
    (body : Option String) (now : DateTime) : Response × Store :=
  match body with
  | none => (⟨400, .error "Invalid body"⟩, s)
  | some location =>
    match s.updateOneUser (callFails failing 0) (emailIs email)
        (fun d => { d with location := location, updated_at := now }) with
    | .error _ => (⟨500, .error "Update failed"⟩, s)
    | .ok s1 => (⟨200, .message "Location updated"⟩, s1)

/-- `UpdateUserLocation` with every store call served. -/
def UpdateUserLocation (s : Store) (email : String) (body : Option String) (now : DateTime) :
    Response × Store :=
  UpdateUserLocationWith [] s email body now

/-- The handler `UpdatePreferredLocations`; `body` is the parsed
`preferred_locations` of the payload.  The `$set` writes the field whatever
its length. -/
def UpdatePreferredLocationsWith (failing : List Nat) (s : Store) (email : String)
    (body : Option (List String)) (now : DateTime) : Response × Store :=
  match body with
  | none => (⟨400, .error "Invalid body"⟩, s)
  | some locations =>
    match s.updateOneUser (callFails failing 0) (emailIs email)
        (fun d => { d with preferred_locations := some locations, updated_at := now }) with
    | .error _ => (⟨500, .error "Update failed"⟩, s)
    | .ok s1 => (⟨200, .message "Preferred locations updated"⟩, s1)

/-- `UpdatePreferredLocations` with every store call served. -/
def UpdatePreferredLocations (s : Store) (email : String) (body : Option (List String))
    (now : DateTime) : Response × Store :=
  UpdatePreferredLocationsWith [] s email body now

/-- The filter `bson.M{"_id": bson.M{"$in": ids}}` on properties. -/
def propertyIdIn (ids : List ObjectID) (d : PropertyDoc) : Bool := decide (d._id ∈ ids)

/-- `db.PropertyCollection().Find(ctx, bson.M{"_id": bson.M{"$in": ids}})`
followed by `cursor.All`, for `ids` a slice decoded from a user document:
the slice is nil when the document lacks the field, a nil slice is
marshalled as BSON null, and the store refuses `$in` with anything but an
array. -/
def Store.findPropertiesIn (s : Store) (ids : Option (List ObjectID)) :
    Except StoreErr (List PropertyDoc) :=
  match ids with
  | none => .error .badValue
  | some l => .ok (s.findProperties (propertyIdIn l))

/-- The handler `GetLikedProperties`. -/
def GetLikedProperties (s : Store) (email : String) : Response :=
  match s.findOneUser (emailIs email) with
  | none => ⟨404, .error "User not found"⟩
  | some d =>
    match s.findPropertiesIn d.liked_properties with
    | .error _ => ⟨500, .error "Failed to fetch properties"⟩
    | .ok properties => ⟨200, .properties (properties.map decodeProperty)⟩

/-- The handler `GetPostedProperties`. -/
def GetPostedProperties (s : Store) (email : String) : Response :=
  match s.findOneUser (emailIs email) with
  | none => ⟨404, .error "User not found"⟩
  | some d =>
    match s.findPropertiesIn d.posted_properties with
    | .error _ => ⟨500, .error "Failed to fetch properties"⟩
    | .ok properties => ⟨200, .properties (properties.map decodeProperty)⟩

/-! ### primitive.ObjectIDFromHex -/

/-- The value of one hexadecimal digit, either case. -/
def hexDigit (c : Char) : Option Nat :=
  if 48 ≤ c.toNat ∧ c.toNat ≤ 57 then some (c.toNat - 48)
  else if 97 ≤ c.toNat ∧ c.toNat ≤ 102 then some (c.toNat - 87)
  else if 65 ≤ c.toNat ∧ c.toNat ≤ 70 then some (c.toNat - 55)
  else none

/-- The number a string of hexadecimal digits denotes, continuing from `acc`. -/
def hexDecode : List Char → Nat → Option Nat
  | [], acc => some acc
  | c :: cs, acc =>
    match hexDigit c with
    | none => none
    | some d => hexDecode cs (16 * acc + d)

/-- The function `primitive.ObjectIDFromHex`: the string must be 24 bytes
long and decode as hexadecimal. -/
def ObjectIDFromHex (s : String) : Option ObjectID :=
  if s.utf8ByteSize ≠ 24 then none else hexDecode s.data 0

/-- The handler `HandleRentalRequest`; `failing` lists the indices of the
store calls that fail. -/
def HandleRentalRequestWith (failing : List Nat) (s : Store)
    (propertyIDParam renterIDParam action : String) : Response × Store :=
  if propertyIDParam = "" ∨ renterIDParam = "" ∨ action = "" then
    (⟨400, .error "Property ID, renter ID, and action are required"⟩, s)
  else
  match ObjectIDFromHex propertyIDParam with
  | none => (⟨400, .error "Invalid property ID"⟩, s)
  | some propertyID =>
  match ObjectIDFromHex renterIDParam with
  | none => (⟨400, .error "Invalid renter ID"⟩, s)
  | some renterID =>
  match s.updateOneProperty (callFails failing 0) (propertyIdIs propertyID)
      (fun d => { d with rental_requests := d.rental_requests.map (pull renterID) }) with
  | .error _ => (⟨500, .error "Failed to update property"⟩, s)
  | .ok s1 =>
  match s1.updateOneUser (callFails failing 1) (userIdIs renterID)
      (fun d => { d with rental_requests := pull propertyID d.rental_requests }) with
  | .error _ => (⟨500, .error "Failed to update user"⟩, s1)
  | .ok s2 =>
  if action = "accept" then
    match s2.updateOneProperty (callFails failing 2) (propertyIdIs propertyID)
        (fun d => { d with is_rented := true, rented_by_id := some renterID }) with
    | .error _ => (⟨500, .error "Failed to mark property as rented"⟩, s2)
    | .ok s3 =>
    match s3.updateOneUser (callFails failing 3) (userIdIs renterID)
        (fun d => { d with rented_properties := addToSet propertyID d.rented_properties }) with
    | .error _ => (⟨500, .error "Failed to update user rented properties"⟩, s3)
    | .ok s4 => (⟨200, .message "Rental request accepted"⟩, s4)
  else (⟨200, .message "Rental request rejected"⟩, s2)

/-- `HandleRentalRequest` with every store call served. -/
def HandleRentalRequest (s : Store) (propertyIDParam renterIDParam action : String) :
    Response × Store :=
  HandleRentalRequestWith [] s propertyIDParam renterIDParam action

/-- The stages `$match` and `$lookup` of the pipeline of
`GetRentalRequestsForUserProperties`: `$ne: []` lets through every document
whose `rental_requests` is not the empty array, an absent field included. -/
def rentalRequestsPipeline (s : Store) (userEmail : String) :
    List (PropertyDoc × List UserDoc) :=
  (s.properties.filter
      (fun d => d.owner_email == userEmail && decide (d.rental_requests ≠ some []))).map
    (fun d => (d, s.users.filter (fun u => decide (u._id ∈ d.requests))))

/-- The handler `GetRentalRequestsForUserProperties`. -/
def GetRentalRequestsForUserProperties (s : Store) (userEmail : String) : Response :=
  if userEmail = "" then ⟨400, .error "Email is required"⟩
  else ⟨200, .joined (rentalRequestsPipeline s userEmail)⟩

/-- The handler `GetRentedPropertiesByUser`. -/
def GetRentedPropertiesByUser (s : Store) (userID : String) : Response :=
  if userID = "" then ⟨400, .error "User ID required"⟩
  else
  match ObjectIDFromHex userID with
  | none => ⟨400, .error "Invalid User ID"⟩
  | some objectID =>
    ⟨200, .properties
      ((s.findProperties (fun d => decide (d.rented_by_id = some objectID))).map decodeProperty)⟩

/-! ## handlers/property_handler.go -/

/-- `Decode(&user)` into a `models.User` that already holds the parsed body.
The driver does not zero the target, so a field absent from the document
keeps the value it had; `preferred_locations` is the one such field that
`GetHomescreenProperties` reads after decoding, the others are taken from the
document. -/
def decodeUserInto (user : User) (d : UserDoc) : User :=
  { decodeUser d with
    PreferredLocations :=
      match d.preferred_locations with
      | some l => l
      | none => user.PreferredLocations }

/-- The zero value of `models.User`. -/
def User.zero : User :=
  { ID := 0, Email := "", Name := "", ProfilePic := "", Location := "",
    PreferredLocations := [], PostedProperties := [], LikedProperties := [],
    RentedProperties := [], RentalRequests := [], CreatedAt := 0, UpdatedAt := 0 }

/-- The filter `bson.M{"location": bson.M{"$in": locations}}`. -/
def locationIn (locations : List String) (d : PropertyDoc) : Bool :=
  decide (d.location ∈ locations)

/-- The handler `GetHomescreenProperties` from `utils.DatabaseContext()` on:
`user` is the variable as it stands there, zero-valued or filled by the body
parser, and `userEmail` the email to look up. -/
def homescreenFor (s : Store) (user : User) (userEmail : String) : Response :=
  match s.findOneUser (emailIs userEmail) with
  | none => ⟨500, .error "Failed to fetch user details"⟩
  | some d =>
    let user := decodeUserInto user d
    if user.PreferredLocations.length = 0 then
      ⟨400, .error "Preferred locations not set"⟩
    else
      ⟨200, .properties
        ((s.findProperties (locationIn user.PreferredLocations)).map decodeProperty)⟩

/-- The handler `GetHomescreenProperties`; `body` is what
`c.BodyParser(&user)` yields, read only when the query has no `email`. -/
def GetHomescreenProperties (s : Store) (emailQuery : String) (body : Option User) : Response :=
  if emailQuery = "" then
    match body with
    | none => ⟨400, .error "Email is required"⟩
    | some user => homescreenFor s user user.Email
  else homescreenFor s User.zero emailQuery

/-- The anonymous struct `input` of `CreateProperty`. -/
structure CreatePropertyInput where
  Title : String
  Description : String
  Price : ℚ
  Location : String
  Thumbnail : String
  Pictures : List String
deriving DecidableEq, Repr

/-- The handler `CreateProperty`.  `newID` is the result of
`primitive.NewObjectID()`, `now1` and `now2` those of the two calls of
`utils.Now()`, and `failing` the indices of the store calls that fail: 0 is
the lookup of the owner, 1 the insert, 2 the update of the owner. -/
def CreatePropertyWith (failing : List Nat) (s : Store) (body : Option CreatePropertyInput)
    (email : String) (newID : ObjectID) (now1 now2 : DateTime) : Response × Store :=
  match body with
  | none => (⟨400, .error "Invalid body"⟩, s)
  | some input =>
  if email = "" then (⟨400, .error "Email is required"⟩, s)
  else
  match found (callFails failing 0) (s.findOneUser (emailIs email)) with
  | none => (⟨404, .error "User not found"⟩, s)
  | some d =>
    let user := decodeUser d
    let property : Property :=
      { ID := newID, Title := input.Title, Description := input.Description,
        Price := input.Price, Location := input.Location, OwnerEmail := user.Email,
        OwnerName := user.Name, OwnerPic := user.ProfilePic, IsRented := false,
        RentedByEmail := "", RentalRequests := [], Thumbnail := input.Thumbnail,
        Pictures := input.Pictures, LikedBy := [], CreatedAt := now1, UpdatedAt := now2 }
    match s.insertOneProperty (callFails failing 1) (encodeProperty property) with
    | .error _ => (⟨500, .error "Failed to create property"⟩, s)
    | .ok s1 =>
    match s1.updateOneUser (callFails failing 2) (emailIs email)
        (fun u => { u with posted_properties := some (u.posted ++ [property.ID]) }) with
    | .error _ =>
      (⟨500, .error "Property created, but failed to update user's posted properties"⟩, s1)
    | .ok s2 => (⟨201, .property property⟩, s2)

/-- `CreateProperty` with every store call served. -/
def CreateProperty (s : Store) (body : Option CreatePropertyInput) (email : String)
    (newID : ObjectID) (now1 now2 : DateTime) : Response × Store :=
  CreatePropertyWith [] s body email newID now1 now2

/-- The update `bson.M{"$set": property}` applied to a stored document: the
fields without `omitempty` are always written, the others only when they are
not empty, and `rented_by_id`, which the struct lacks, is never written.
`_id` is left to `Store.setOneProperty`. -/
def setProperty (p : Property) (d : PropertyDoc) : PropertyDoc :=
  { d with
    title := p.Title, description := p.Description, price := p.Price,
    location := p.Location, owner_email := p.OwnerEmail, owner_name := p.OwnerName,
    owner_pic := p.OwnerPic, is_rented := p.IsRented,
    rented_by_email := if p.RentedByEmail = "" then d.rented_by_email else p.RentedByEmail,
    rental_requests := if p.RentalRequests = [] then d.rental_requests else some p.RentalRequests,
    thumbnail := if p.Thumbnail = "" then d.thumbnail else p.Thumbnail,
    pictures := if p.Pictures = [] then d.pictures else p.Pictures,
    liked_by := if p.LikedBy = [] then d.liked_by else p.LikedBy,
    created_at := if p.CreatedAt = 0 then d.created_at else p.CreatedAt,
    updated_at := if p.UpdatedAt = 0 then d.updated_at else p.UpdatedAt }

/-- `db.PropertyCollection().UpdateOne(ctx, bson.M{"_id": id}, bson.M{"$set": property})`:
a non-zero `property.ID` other than `id` would change `_id`, which the store
refuses; with `fails` the call is not served. -/
def Store.setOneProperty (s : Store) (fails : Bool) (id : ObjectID) (p : Property) :
    Except StoreErr Store :=
  if p.ID ≠ 0 ∧ p.ID ≠ id ∧ (s.findOneProperty (propertyIdIs id)).isSome then
    .error .immutableField
  else s.updateOneProperty fails (propertyIdIs id) (setProperty p)

/-- The handler `UpdateProperty`; `idParam` is `c.Params("id")`, `body` what
`c.BodyParser(&property)` yields, `emailQuery` is `c.Query("email")` and
`failing` the indices of the store calls that fail: 0 is the lookup, 1 the
update. -/
def UpdatePropertyWith (failing : List Nat) (s : Store) (idParam : String)
    (body : Option Property) (emailQuery : String) (now : DateTime) : Response × Store :=
  match ObjectIDFromHex idParam with
  | none => (⟨400, .error "Invalid property ID"⟩, s)
  | some propertyID =>
  match body with
  | none => (⟨400, .error "Invalid body"⟩, s)
  | some property =>
  let userEmail := if property.OwnerEmail = "" then emailQuery else property.OwnerEmail
  if userEmail = "" then (⟨400, .error "Email is required"⟩, s)
  else
  match found (callFails failing 0) (s.findOneProperty (propertyIdIs propertyID)) with
  | none =>
    (⟨403, .error "You cannot update a property that doesn't belong to you"⟩, s)
  | some d =>
    let existingProperty := decodeProperty d
    if existingProperty.OwnerEmail ≠ userEmail then
      (⟨403, .error "You cannot update a property that doesn't belong to you"⟩, s)
    else
      let property := { property with UpdatedAt := now }
      match s.setOneProperty (callFails failing 1) propertyID property with
      | .error _ => (⟨500, .error "Failed to update property"⟩, s)
      | .ok s1 => (⟨200, .message "Property updated"⟩, s1)

/-- `UpdateProperty` with every store call served. -/
def UpdateProperty (s : Store) (idParam : String) (body : Option Property)
    (emailQuery : String) (now : DateTime) : Response × Store :=
  UpdatePropertyWith [] s idParam body emailQuery now

/-- The step "Get email from body or query" of `DeleteProperty`,
`LikeProperty` and `UnlikeProperty`: the query value, else the `owner_email`
of the parsed body; `none` when the body is needed and does not parse. -/
def emailFromQueryOrBody (emailQuery : String) (body : Option Property) : Option String :=
  if emailQuery = "" then body.map (fun property => property.OwnerEmail) else some emailQuery

/-- The handler `DeleteProperty`; `body` is read only when the query has no
`email`, and `failing` lists the indices of the store calls that fail: 0 is
the lookup, 1 the delete. -/
def DeletePropertyWith (failing : List Nat) (s : Store) (idParam : String)
    (emailQuery : String) (body : Option Property) : Response × Store :=
  match ObjectIDFromHex idParam with
  | none => (⟨400, .error "Invalid property ID"⟩, s)
  | some propertyID =>
  match emailFromQueryOrBody emailQuery body with
  | none => (⟨400, .error "Invalid body"⟩, s)
  | some userEmail =>
  if userEmail = "" then (⟨400, .error "Email is required"⟩, s)
  else
  match found (callFails failing 0) (s.findOneProperty (propertyIdIs propertyID)) with
  | none =>
    (⟨403, .error "You cannot delete a property that doesn't belong to you"⟩, s)
  | some d =>
    let property := decodeProperty d
    if property.OwnerEmail ≠ userEmail then
      (⟨403, .error "You cannot delete a property that doesn't belong to you"⟩, s)
    else
      match s.deleteOneProperty (callFails failing 1) (propertyIdIs propertyID) with
      | .error _ => (⟨500, .error "Failed to delete property"⟩, s)
      | .ok s1 => (⟨200, .message "Property deleted"⟩, s1)

/-- `DeleteProperty` with every store call served. -/
def DeleteProperty (s : Store) (idParam : String) (emailQuery : String)
    (body : Option Property) : Response × Store :=
  DeletePropertyWith [] s idParam emailQuery body

/-- The handler `LikeProperty`; `failing` lists the indices of the
store calls that fail. -/
def LikePropertyWith (failing : List Nat) (s : Store) (idParam : String)
    (emailQuery : String) (body : Option Property) : Response × Store :=
  match ObjectIDFromHex idParam with
  | none => (⟨400, .error "Invalid property ID"⟩, s)
  | some propertyID =>
  match emailFromQueryOrBody emailQuery body with
  | none => (⟨400, .error "Invalid body"⟩, s)
  | some userEmail =>
  if userEmail = "" then (⟨400, .error "Email is required"⟩, s)
  else
  match s.updateOneProperty (callFails failing 0) (propertyIdIs propertyID)
      (fun d => { d with liked_by := addToSet userEmail d.liked_by }) with
  | .error _ => (⟨500, .error "Failed to like property"⟩, s)
  | .ok s1 =>
  match s1.updateOneUser (callFails failing 1) (emailIs userEmail)
      (fun u => { u with liked_properties := some (addToSet propertyID u.liked) }) with
  | .error _ => (⟨500, .error "Failed to update user liked properties"⟩, s1)
  | .ok s2 => (⟨200, .message "Property liked"⟩, s2)

/-- `LikeProperty` with every store call served. -/
def LikeProperty (s : Store) (idParam : String) (emailQuery : String)
    (body : Option Property) : Response × Store :=
  LikePropertyWith [] s idParam emailQuery body

/-- The handler `UnlikeProperty`; `failing` lists the indices of the
store calls that fail. -/
def UnlikePropertyWith (failing : List Nat) (s : Store) (idParam : String)
    (emailQuery : String) (body : Option Property) : Response × Store :=
  match ObjectIDFromHex idParam with
  | none => (⟨400, .error "Invalid property ID"⟩, s)
  | some propertyID =>
  match emailFromQueryOrBody emailQuery body with
  | none => (⟨400, .error "Invalid body"⟩, s)
  | some userEmail =>
  if userEmail = "" then (⟨400, .error "Email is required"⟩, s)
  else
  match s.updateOneProperty (callFails failing 0) (propertyIdIs propertyID)
      (fun d => { d with liked_by := pull userEmail d.liked_by }) with
  | .error _ => (⟨500, .error "Failed to unlike property"⟩, s)
  | .ok s1 =>
  match s1.updateOneUser (callFails failing 1) (emailIs userEmail)
      (fun u => { u with liked_properties := u.liked_properties.map (pull propertyID) }) with
  | .error _ => (⟨500, .error "Failed to update user liked properties"⟩, s1)
  | .ok s2 => (⟨200, .message "Property unliked"⟩, s2)

/-- `UnlikeProperty` with every store call served. -/
def UnlikeProperty (s : Store) (idParam : String) (emailQuery : String)
    (body : Option Property) : Response × Store :=
  UnlikePropertyWith [] s idParam emailQuery body

/-- The handler `GetLikedPropertiesByUser`. -/
def GetLikedPropertiesByUser (s : Store) (email : String) : Response :=
  if email = "" then ⟨400, .error "Email is required"⟩
  else
  match s.findOneUser (emailIs email) with
  | none => ⟨404, .error "User not found"⟩
  | some d =>
    let user := decodeUser d
    if user.LikedProperties.length = 0 then ⟨200, .properties []⟩
    else
      ⟨200, .properties
        ((s.findProperties (propertyIdIn user.LikedProperties)).map decodeProperty)⟩

/-- The handler `RequestToRentProperty`; `failing` lists the indices of the
store calls that fail. -/
def RequestToRentPropertyWith (failing : List Nat) (s : Store)
    (propertyIDParam userIDParam : String) : Response × Store :=
  if propertyIDParam = "" ∨ userIDParam = "" then
    (⟨400, .error "Property ID and user ID are required"⟩, s)
  else
  match ObjectIDFromHex propertyIDParam with
  | none => (⟨400, .error "Invalid property ID"⟩, s)
  | some propertyID =>
  match ObjectIDFromHex userIDParam with
  | none => (⟨400, .error "Invalid user ID"⟩, s)
  | some userID =>
  match s.updateOneProperty (callFails failing 0) (propertyIdIs propertyID)
      (fun d => { d with rental_requests := some (addToSet userID d.requests) }) with
  | .error _ => (⟨500, .error "Failed to add rental request"⟩, s)
  | .ok s1 =>
  match s1.updateOneUser (callFails failing 1) (userIdIs userID)
      (fun u => { u with rental_requests := addToSet propertyID u.rental_requests }) with
  | .error _ => (⟨500, .error "Failed to update user's request list"⟩, s1)
  | .ok s2 => (⟨200, .message "Rental request sent"⟩, s2)

/-- `RequestToRentProperty` with every store call served. -/
def RequestToRentProperty (s : Store) (propertyIDParam userIDParam : String) :
    Response × Store :=
  RequestToRentPropertyWith [] s propertyIDParam userIDParam

/-! ### strconv.Atoi and SearchProperties -/

/-- The number a string of decimal digits denotes, continuing from `acc`;
`none` when a byte is not a digit. -/
def decDecode : List Char → Nat → Option Nat
  | [], acc => some acc
  | c :: cs, acc =>
    if 48 ≤ c.toNat ∧ c.toNat ≤ 57 then decDecode cs (10 * acc + (c.toNat - 48)) else none

/-- The function `strconv.Atoi` on a 64-bit platform: the value and whether
`err == nil`.  An optional sign, then at least one digit and nothing else; on
a syntax error the value is `0`, out of the `int` range it is the nearest
bound and the error is set. -/
def Atoi (s : String) : Int × Bool :=
  let neg : Bool := s.data.head? = some '-'
  let digits : List Char :=
    if s.data.head? = some '-' ∨ s.data.head? = some '+' then s.data.tail else s.data
  if digits = [] then (0, false)
  else
    match decDecode digits 0 with
    | none => (0, false)
    | some n =>
      if neg then
        if n ≤ 2 ^ 63 then (-(n : Int), true) else (-(2 ^ 63 : Int), false)
      else
        if n < 2 ^ 63 then ((n : Int), true) else ((2 ^ 63 : Int) - 1, false)

/-- The value of the key `price` in the filter of `SearchProperties`: the
operators `$gte` and `$lte` that were set. -/
structure PriceFilter where
  gte : Option Int
  lte : Option Int
deriving DecidableEq, Repr

/-- The `bson.M` filter of `SearchProperties`: the keys `location` and
`price`, each present or not. -/
structure SearchFilter where
  location : Option String
  price : Option PriceFilter
deriving DecidableEq, Repr

/-- Whether a price satisfies the operators of a `PriceFilter`. -/
def PriceFilter.admits (f : PriceFilter) (price : ℚ) : Bool :=
  (match f.gte with
    | none => true
    | some lo => decide ((lo : ℚ) ≤ price)) &&
  (match f.lte with
    | none => true
    | some hi => decide (price ≤ (hi : ℚ)))

/-- Whether a property document matches a `SearchFilter`. -/
def SearchFilter.admits (f : SearchFilter) (d : PropertyDoc) : Bool :=
  (match f.location with
    | none => true
    | some l => d.location == l) &&
  (match f.price with
    | none => true
    | some pf => pf.admits d.price)

/-- The filter `SearchProperties` builds from its three query strings. -/
def searchFilter (location minPrice maxPrice : String) : SearchFilter :=
  let filter : SearchFilter := ⟨none, none⟩
  let filter := if location ≠ "" then { filter with location := some location } else filter
  if minPrice ≠ "" ∨ maxPrice ≠ "" then
    let priceFilter : PriceFilter := ⟨none, none⟩
    let priceFilter :=
      if (Atoi minPrice).2 then { priceFilter with gte := some (Atoi minPrice).1 }
      else priceFilter
    let priceFilter :=
      if (Atoi maxPrice).2 then { priceFilter with lte := some (Atoi maxPrice).1 }
      else priceFilter
    if priceFilter.gte.isSome ∨ priceFilter.lte.isSome then
      { filter with price := some priceFilter }
    else filter
  else filter

/-- `Find(ctx, filter, options.Find().SetLimit(limit).SetSkip(skip))` followed
by `cursor.All`: a negative skip is refused, a limit of zero is no limit and
a negative limit counts as its absolute value, returned in one batch; the
driver negates a negative `int64` limit, which leaves the least `int64`
negative, and the store refuses it. -/
def Store.findPropertiesPage (s : Store) (filter : PropertyDoc → Bool) (limit skip : Int) :
    Except StoreErr (List PropertyDoc) :=
  if skip < 0 ∨ limit = -(2 ^ 63 : Int) then .error .badValue
  else
    let rest := (s.properties.filter filter).drop skip.toNat
    .ok (if limit = 0 then rest else rest.take limit.natAbs)

/-- The handler `SearchProperties`; the five arguments after the store are
the query values `location`, `min_price`, `max_price`, `limit` and `skip`,
empty when the query lacks them. -/
def SearchProperties (s : Store) (location minPrice maxPrice limitQuery skipQuery : String) :
    Response :=
  let filter := searchFilter location minPrice maxPrice
  let limit := (Atoi (if limitQuery = "" then "10" else limitQuery)).1
  let skip := (Atoi (if skipQuery = "" then "0" else skipQuery)).1
  match s.findPropertiesPage filter.admits limit skip with
  | .error _ => ⟨500, .error "Failed to fetch properties"⟩
  | .ok properties => ⟨200, .properties (properties.map decodeProperty)⟩

/-! ## The handlers as a transition system -/

/-- A call of one of the handlers that write to the store, with its inputs;
`failing` lists the indices of the store calls that fail while the call is
handled. -/
inductive Request where
  | registerUser (body : Option User) (newID : ObjectID) (now : DateTime)
      (failing : List Nat)
  | updateUserLocation (email : String) (body : Option String) (now : DateTime)
      (failing : List Nat)
  | updatePreferredLocations (email : String) (body : Option (List String)) (now : DateTime)
      (failing : List Nat)
  | createProperty (body : Option CreatePropertyInput) (email : String) (newID : ObjectID)
      (now1 now2 : DateTime) (failing : List Nat)
  | updateProperty (idParam : String) (body : Option Property) (emailQuery : String)
      (now : DateTime) (failing : List Nat)
  | deleteProperty (idParam : String) (emailQuery : String) (body : Option Property)
      (failing : List Nat)
  | likeProperty (idParam : String) (emailQuery : String) (body : Option Property)
      (failing : List Nat)
  | unlikeProperty (idParam : String) (emailQuery : String) (body : Option Property)
      (failing : List Nat)
  | requestToRentProperty (propertyIDParam userIDParam : String) (failing : List Nat)
  | handleRentalRequest (propertyIDParam renterIDParam action : String) (failing : List Nat)

/-- The response to a request and the store after it. -/
def handle (s : Store) : Request → Response × Store
  | .registerUser body newID now failing => RegisterUserWith failing s body newID now
  | .updateUserLocation email body now failing => UpdateUserLocationWith failing s email body now
  | .updatePreferredLocations email body now failing =>
    UpdatePreferredLocationsWith failing s email body now
  | .createProperty body email newID now1 now2 failing =>
    CreatePropertyWith failing s body email newID now1 now2
  | .updateProperty idParam body emailQuery now failing =>
    UpdatePropertyWith failing s idParam body emailQuery now
  | .deleteProperty idParam emailQuery body failing =>
    DeletePropertyWith failing s idParam emailQuery body
  | .likeProperty idParam emailQuery body failing =>
    LikePropertyWith failing s idParam emailQuery body
  | .unlikeProperty idParam emailQuery body failing =>
    UnlikePropertyWith failing s idParam emailQuery body
  | .requestToRentProperty p u failing => RequestToRentPropertyWith failing s p u
  | .handleRentalRequest p r a failing => HandleRentalRequestWith failing s p r a

/-- The store after a sequence of requests, served one after the other. -/
def run (s : Store) : List Request → Store
  | [] => s
  | r :: rs => run (handle s r).2 rs

/-- A store some sequence of requests leads to from the empty store. -/
def Reachable (s : Store) : Prop := ∃ rs : List Request, run Store.empty rs = s

/-! ## Notions the properties are stated with -/

/-- How many user documents carry an email. -/
def usersWithEmail (s : Store) (email : String) : Nat :=
  s.users.countP (emailIs email)

/-- The `id` of the user a response carries, if it carries one. -/
def Response.userID (r : Response) : Option ObjectID :=
  match r.body with
  | .user u => some u.ID
  | _ => none

/-- A user document with the given id, email and `rental_requests`, the
other fields empty. -/
def sampleUser (id : ObjectID) (email : String) (requests : List ObjectID) : UserDoc :=
  { _id := id, email := email, name := "", profile_pic := "", location := "",
    preferred_locations := none, posted_properties := none, liked_properties := none,
    rented_properties := [], rental_requests := requests, created_at := 0, updated_at := 0 }

/-- A registration body with the given email and `rental_requests`. -/
def sampleBody (email : String) (requests : List ObjectID) : User :=
  { User.zero with Email := email, RentalRequests := requests }

/-- A property document with the given id, owner, location and price, the
other fields empty. -/
def sampleProperty (id : ObjectID) (owner location : String) (price : ℚ) : PropertyDoc :=
  { _id := id, title := "", description := "", price := price, location := location,
    owner_email := owner, owner_name := "", owner_pic := "", is_rented := false,
    rented_by_email := "", rental_requests := none, thumbnail := "", pictures := [],
    liked_by := [], created_at := 0, updated_at := 0, rented_by_id := none }

/-- The zero value of `models.Property`. -/
def Property.zero : Property :=
  { ID := 0, Title := "", Description := "", Price := 0, Location := "", OwnerEmail := "",
    OwnerName := "", OwnerPic := "", IsRented := false, RentedByEmail := "",
    RentalRequests := [], Thumbnail := "", Pictures := [], LikedBy := [], CreatedAt := 0,
    UpdatedAt := 0 }

/-- The requests that register an owner, let the owner post a property with
id 2, and register a second user, id 3, whose body lists that property twice
in `rental_requests`. -/
def duplicateRequestsTrace : List Request :=
  [ .registerUser (some (sampleBody "o@x.io" [])) 1 0 [],
    .createProperty (some ⟨"flat", "", 100, "Austin", "", []⟩) "o@x.io" 2 0 0 [],
    .registerUser (some (sampleBody "u@x.io" [2, 2])) 3 0 [] ]

/-- A store with an owner, a property with id 2 in Austin, and a user with
id 3 who has requested the property and whose email is in its `liked_by`. -/
def requestedStore : Store :=
  ⟨[sampleUser 1 "o@x.io" [], sampleUser 3 "u@x.io" [2]],
    [{ sampleProperty 2 "o@x.io" "Austin" 100 with
        rental_requests := some [3], liked_by := ["u@x.io"] }]⟩

/-- The requests that register an owner and let the owner post a property
with id 2, `owner_email` `o@x.io`. -/
def postedTrace : List Request :=
  [ .registerUser (some (sampleBody "o@x.io" [])) 1 0 [],
    .createProperty (some ⟨"flat", "", 100, "Austin", "", []⟩) "o@x.io" 2 0 0 [] ]

/-- A store with a user `u@x.io` registered without preferred locations, so
that the field is absent from the document, and a property in Austin. -/
def noPreferenceStore : Store :=
  ⟨[sampleUser 3 "u@x.io" []], [sampleProperty 2 "o@x.io" "Austin" 100]⟩

/-- Whether a sequence of requests, served from `s`, passes a guard at every
step: `g t r` is asked in the store `t` in which the request `r` arrives. -/
def guarded (g : Store → Request → Bool) : Store → List Request → Bool
  | _, [] => true
  | s, r :: rs => g s r && guarded g (handle s r).2 rs

/-- A rented property names its renter and no longer lists that renter among
its requests. -/
def PropertyDoc.rentedOk (d : PropertyDoc) : Prop :=
  d.is_rented = true → ∃ r, d.rented_by_id = some r ∧ r ∉ d.requests

/-- Every stored property is `rentedOk`. -/
def RentedInv (s : Store) : Prop := ∀ d ∈ s.properties, d.rentedOk

/-- The requests under which `RentedInv` is kept: an `UpdateProperty` body
sets `is_rented` only for a property that is rented already, and then carries
no `rental_requests`; and `RequestToRentProperty` is not called for a rented
property by the user recorded as its renter. -/
def rentedGuard (s : Store) : Request → Bool
  | .updateProperty idParam body _ _ _ =>
    match body with
    | some p =>
      !p.IsRented ||
        (decide (p.RentalRequests = []) &&
          match ObjectIDFromHex idParam with
          | some propertyID =>
            match s.findOneProperty (propertyIdIs propertyID) with
            | some d => d.is_rented
            | none => true
          | none => true)
    | none => true
  | .requestToRentProperty propertyIDParam userIDParam _ =>
    match ObjectIDFromHex propertyIDParam, ObjectIDFromHex userIDParam with
    | some propertyID, some userID =>
      match s.findOneProperty (propertyIdIs propertyID) with
      | some d => !(d.is_rented && decide (d.rented_by_id = some userID))
      | none => true
    | _, _ => true
  | _ => true

/-- The requests of `postedTrace`, then a user with id 3 registers, the
request of user 3 for property 2 is accepted, and user 3 requests the
property again. -/
def rentedAgainTrace : List Request :=
  postedTrace ++
  [ .registerUser (some (sampleBody "u@x.io" [])) 3 0 [],
    .handleRentalRequest "000000000000000000000002" "000000000000000000000003" "accept" [],
    .requestToRentProperty "000000000000000000000002" "000000000000000000000003" [] ]

/-- The requests of `postedTrace`, then a user registers, requests property 2,
is accepted and likes the property, and the owner renames the property,
keeping `is_rented`. -/
def rentedTrace : List Request :=
  postedTrace ++
  [ .registerUser (some (sampleBody "u@x.io" [])) 3 0 [],
    .requestToRentProperty "000000000000000000000002" "000000000000000000000003" [],
    .handleRentalRequest "000000000000000000000002" "000000000000000000000003" "accept" [],
    .likeProperty "000000000000000000000002" "u@x.io" none [],
    .updateProperty "000000000000000000000002"
      (some { Property.zero with Title := "loft", OwnerEmail := "o@x.io", IsRented := true })
      "" 7 [] ]

/-- The two `rental_requests` sides agree: for every stored property and
every stored user, the user's id is among the property's requests exactly
when the property's id is among the user's. -/
def Agree (s : Store) : Prop :=
  ∀ d ∈ s.properties, ∀ u ∈ s.users, (u._id ∈ d.requests ↔ d._id ∈ u.rental_requests)

/-- No stored document lists the id in its `rental_requests`. -/
def unlisted (s : Store) (id : ObjectID) : Bool :=
  s.users.all (fun u => decide (id ∉ u.rental_requests)) &&
  s.properties.all (fun d => decide (id ∉ d.requests))

/-- The requests of `postedTrace`, then a user with id 3 registers and
requests property 2, and of the two writes of that request the one to the
user document fails. -/
def halfRequestTrace : List Request :=
  postedTrace ++
  [ .registerUser (some (sampleBody "u@x.io" [])) 3 0 [],
    .requestToRentProperty "000000000000000000000002" "000000000000000000000003" [1] ]

/-- What `agreeGuard` asks of the bodies and of the new ids, without what it
asks of the writes. -/
def agreeBodyGuard (s : Store) : Request → Bool
  | .registerUser body newID _ _ =>
    (match body with
      | some user => decide (user.RentalRequests = [])
      | none => true) && unlisted s newID
  | .createProperty _ _ newID _ _ _ => unlisted s newID
  | .updateProperty _ body _ _ _ =>
    match body with
    | some p => decide (p.RentalRequests = [])
    | none => true
  | _ => true

/-- The request that registers `u@x.io` with id 3 from a body that names
only the email. -/
def registeredTrace : List Request :=
  [ .registerUser (some (sampleBody "u@x.io" [])) 3 0 [] ]

/-- A registration body that carries all four reference sequences. -/
def referencesBody : User :=
  { User.zero with
    Email := "u@x.io", PostedProperties := [9], LikedProperties := [9],
    RentedProperties := [9], RentalRequests := [9] }

/-- The requests of `postedTrace`, then users 3 and 4 register and the owner
accepts first user 3 and then user 4 for property 2. -/
def twoRentersTrace : List Request :=
  postedTrace ++
  [ .registerUser (some (sampleBody "u@x.io" [])) 3 0 [],
    .registerUser (some (sampleBody "v@x.io" [])) 4 0 [],
    .handleRentalRequest "000000000000000000000002" "000000000000000000000003" "accept" [],
    .handleRentalRequest "000000000000000000000002" "000000000000000000000004" "accept" [] ]

/-- The requests under which no two user documents get one email: the lookup
of a `RegisterUser` call, its store call with index 0, does not fail. -/
def lookupGuard (_ : Store) : Request → Bool
  | .registerUser _ _ _ failing => decide (0 ∉ failing)
  | _ => true

/-- Two registrations of `a@x.io`, with generated ids 1 and 2; the lookup of
the second fails. -/
def failedLookupTrace : List Request :=
  [ .registerUser (some (sampleBody "a@x.io" [])) 1 10 [],
    .registerUser (some (sampleBody "a@x.io" [])) 2 20 [0] ]

/-- The rented-properties lookup as the specification words it: resolve the
identifier set `rented_properties` from the user document, then fetch the
property documents whose id is a member of that set. -/
def rentedPropertiesOfUserDocument (s : Store) (userID : ObjectID) : List Property :=
  match s.findOneUser (userIdIs userID) with
  | none => []
  | some u => (s.findProperties (propertyIdIn u.rented_properties)).map decodeProperty

/-! ## Lists and the store -/

@[simp] theorem callFails_nil (i : Nat) : callFails [] i = false := rfl

@[simp] theorem found_false {α : Type} (r : Option α) : found false r = r := rfl

@[simp] theorem found_true {α : Type} (r : Option α) : found true r = none := rfl

theorem find?_updateFirst_self {α : Type} (p : α → Bool) (f : α → α)
    (hf : ∀ x, p (f x) = p x) (l : List α) :
    (updateFirst p f l).find? p = (l.find? p).map f := by
  induction l with
  | nil => rfl
  | cons x xs ih =>
    by_cases hx : p x = true
    · simp [updateFirst, hx, List.find?, hf]
    · simp [updateFirst, hx, List.find?, ih]

theorem mem_updateFirst {α : Type} (p : α → Bool) (f : α → α) (l : List α) (x : α) :
    x ∈ updateFirst p f l → x ∈ l ∨ ∃ y, l.find? p = some y ∧ x = f y := by
  induction l with
  | nil => simp [updateFirst]
  | cons a as ih =>
    intro h
    by_cases ha : p a = true
    · simp only [updateFirst, ha, if_true, List.mem_cons] at h
      rcases h with h | h
      · exact Or.inr ⟨a, by simp [List.find?, ha], h⟩
      · exact Or.inl (List.mem_cons_of_mem _ h)
    · simp only [updateFirst, ha, Bool.false_eq_true, if_false, List.mem_cons] at h
      rcases h with h | h
      · exact Or.inl (by simp [h])
      · rcases ih h with h1 | ⟨y, hy, hxy⟩
        · exact Or.inl (List.mem_cons_of_mem _ h1)
        · exact Or.inr ⟨y, by simpa [List.find?, ha] using hy, hxy⟩

theorem ObjectIDFromHex_ne_empty {s : String} {id : ObjectID}
    (h : ObjectIDFromHex s = some id) : s ≠ "" := by
  intro hs
  subst hs
  have hnone : ObjectIDFromHex "" = none := by decide
  rw [hnone] at h
  cases h

/-! ## Registration -/

/-- C1, as stated, fails.  `RegisterUser` tests the error of its lookup for
`nil` only, so a lookup that fails leads to the insert: of two registrations
of `a@x.io` from the empty store, the second, whose lookup fails, answers 201
with another id than the first and adds a second document.  In the store so
reached two further registrations of the email, every store call served, both
return the first document, and the two documents remain. -/
theorem RegisterUser_twice_two_documents :
    ((RegisterUserWith [] Store.empty (some (sampleBody "a@x.io" [])) 1 10).1.userID =
        some 1 ∧
      (RegisterUserWith [0]
        (RegisterUserWith [] Store.empty (some (sampleBody "a@x.io" [])) 1 10).2
        (some (sampleBody "a@x.io" [])) 2 20).1 =
        ⟨201, .user (newUser (sampleBody "a@x.io" []) 2 20)⟩) ∧
    Reachable (run Store.empty failedLookupTrace) ∧
    usersWithEmail (run Store.empty failedLookupTrace) "a@x.io" = 2 ∧
    ((RegisterUser (run Store.empty failedLookupTrace)
        (some (sampleBody "a@x.io" [])) 3 30).1.userID = some 1) ∧
    ((RegisterUser
        (RegisterUser (run Store.empty failedLookupTrace) (some (sampleBody "a@x.io" [])) 3 30).2
        (some (sampleBody "a@x.io" [])) 4 40).1.userID = some 1) ∧
    usersWithEmail
      (RegisterUser
        (RegisterUser (run Store.empty failedLookupTrace) (some (sampleBody "a@x.io" [])) 3 30).2
        (some (sampleBody "a@x.io" [])) 4 40).2 "a@x.io" = 2 :=
  ⟨by decide, ⟨failedLookupTrace, rfl⟩, by decide, by decide, by decide, by decide⟩

/-- C1, amended: when the store holds at most one user document with the
email and the generated id is not yet a user `_id`, two registrations with
that email, every store call served, return the same user id, the second
returns the stored record with status 200 and changes nothing, and afterwards
exactly one user document has the email. -/
theorem RegisterUser_twice (s : Store) (b1 b2 : User) (id1 id2 : ObjectID) (t1 t2 : DateTime)
    (hemail : b2.Email = b1.Email)
    (huniq : usersWithEmail s b1.Email ≤ 1)
    (hfresh : ∀ d ∈ s.users, d._id ≠ id1) :
    (∃ id, (RegisterUser s (some b1) id1 t1).1.userID = some id ∧
      (RegisterUser (RegisterUser s (some b1) id1 t1).2 (some b2) id2 t2).1.userID = some id) ∧
    (RegisterUser (RegisterUser s (some b1) id1 t1).2 (some b2) id2 t2).2 =
      (RegisterUser s (some b1) id1 t1).2 ∧
    (∃ d, (RegisterUser s (some b1) id1 t1).2.findOneUser (emailIs b1.Email) = some d ∧
      (RegisterUser (RegisterUser s (some b1) id1 t1).2 (some b2) id2 t2).1 =
        ⟨200, .user (decodeUser d)⟩) ∧
    usersWithEmail (RegisterUser (RegisterUser s (some b1) id1 t1).2 (some b2) id2 t2).2
      b1.Email = 1 := by
  cases hfind : s.findOneUser (emailIs b1.Email) with
  | some d =>
    have h1 : RegisterUser s (some b1) id1 t1 = (⟨200, .user (decodeUser d)⟩, s) := by
      simp [RegisterUser, RegisterUserWith, hfind]
    have h2 : RegisterUser s (some b2) id2 t2 = (⟨200, .user (decodeUser d)⟩, s) := by
      simp [RegisterUser, RegisterUserWith, hemail, hfind]
    rw [h1]
    simp only [h2]
    refine ⟨⟨d._id, rfl, rfl⟩, trivial, ⟨d, hfind, rfl⟩, ?_⟩
    have hpos : 0 < usersWithEmail s b1.Email := by
      unfold usersWithEmail
      rw [List.countP_pos_iff]
      unfold Store.findOneUser at hfind
      exact ⟨d, List.mem_of_find?_eq_some hfind, List.find?_some hfind⟩
    omega
  | none =>
    have hany : (s.users.any fun x => x._id == id1) = false := by
      rw [List.any_eq_false]
      intro x hx
      simpa using hfresh x hx
    have h1 : RegisterUser s (some b1) id1 t1 =
        (⟨201, .user (newUser b1 id1 t1)⟩,
          { s with users := s.users ++ [encodeUser (newUser b1 id1 t1)] }) := by
      simp [RegisterUser, RegisterUserWith, hfind, Store.insertOneUser, encodeUser, newUser, hany]
    rw [h1]
    have hnew : ({ s with users := s.users ++ [encodeUser (newUser b1 id1 t1)] } :
          Store).findOneUser (emailIs b1.Email) = some (encodeUser (newUser b1 id1 t1)) := by
      unfold Store.findOneUser at hfind ⊢
      simp [List.find?_append, hfind, List.find?, emailIs, encodeUser, newUser]
    have h2 : RegisterUser { s with users := s.users ++ [encodeUser (newUser b1 id1 t1)] }
          (some b2) id2 t2 =
        (⟨200, .user (decodeUser (encodeUser (newUser b1 id1 t1)))⟩,
          { s with users := s.users ++ [encodeUser (newUser b1 id1 t1)] }) := by
      simp only [RegisterUser, RegisterUserWith, callFails_nil, found_false, hemail, hnew]
    simp only [h2]
    refine ⟨⟨id1, rfl, rfl⟩, trivial, ⟨_, hnew, rfl⟩, ?_⟩
    have hzero : s.users.countP (emailIs b1.Email) = 0 := by
      rw [List.countP_eq_zero]
      unfold Store.findOneUser at hfind
      intro x hx
      have := List.find?_eq_none.mp hfind x hx
      simpa using this
    simp [usersWithEmail, List.countP_append, hzero, emailIs, encodeUser, newUser]

/-- C1, amended, at the empty store: the hypotheses hold there and two
registrations of one email leave one document. -/
theorem RegisterUser_twice_witness :
    usersWithEmail Store.empty "a@x.io" ≤ 1 ∧
    usersWithEmail
      (RegisterUser (RegisterUser Store.empty (some (sampleBody "a@x.io" [])) 1 10).2
        (some (sampleBody "a@x.io" [7])) 2 20).2 "a@x.io" = 1 :=
  ⟨by decide,
    (RegisterUser_twice Store.empty (sampleBody "a@x.io" []) (sampleBody "a@x.io" [7])
      1 2 10 20 rfl (by decide) (by simp [Store.empty])).2.2.2⟩

/-! ## The operators on arrays -/

@[simp] theorem mem_pull {α : Type} [DecidableEq α] (a x : α) (l : List α) :
    x ∈ pull a l ↔ x ∈ l ∧ x ≠ a := by
  simp [pull]

@[simp] theorem mem_addToSet {α : Type} [DecidableEq α] (a x : α) (l : List α) :
    x ∈ addToSet a l ↔ x ∈ l ∨ x = a := by
  unfold addToSet
  split
  · constructor
    · exact Or.inl
    · rintro (h | h)
      · exact h
      · subst h; assumption
  · simp

theorem addToSet_idem {α : Type} [DecidableEq α] (a : α) (l : List α) :
    addToSet a (addToSet a l) = addToSet a l := by
  have h : a ∈ addToSet a l := by simp
  exact if_pos h

theorem count_addToSet {α : Type} [DecidableEq α] (a : α) (l : List α)
    (h : l.count a ≤ 1) : (addToSet a l).count a = 1 := by
  unfold addToSet
  split
  · rename_i hmem
    have := List.count_pos_iff.mpr hmem
    omega
  · rename_i hmem
    simp [List.count_append, List.count_eq_zero_of_not_mem hmem]

theorem liked_pull (u : UserDoc) (p : ObjectID) :
    ({ u with liked_properties := u.liked_properties.map (pull p) } : UserDoc).liked =
      pull p u.liked := by
  unfold UserDoc.liked
  cases u.liked_properties <;> simp [pull]

theorem requests_pull (d : PropertyDoc) (r : ObjectID) :
    ({ d with rental_requests := d.rental_requests.map (pull r) } : PropertyDoc).requests =
      pull r d.requests := by
  unfold PropertyDoc.requests
  cases d.rental_requests <;> simp [pull]

theorem updateFirst_idem {α : Type} (p : α → Bool) (f : α → α)
    (hp : ∀ x, p (f x) = p x) (hf : ∀ x, f (f x) = f x) (l : List α) :
    updateFirst p f (updateFirst p f l) = updateFirst p f l := by
  induction l with
  | nil => rfl
  | cons x xs ih =>
    by_cases hx : p x = true
    · simp [updateFirst, hx, hp, hf]
    · simp [updateFirst, hx, ih]

/-! ## The rental request handshake -/

/-- C2: with ids that parse, `HandleRentalRequest` reports success; on
"accept" the stored property with that id no longer lists the renter in
`rental_requests`, has `is_rented = true` and `rented_by_id` the renter, and
the stored renter no longer lists the property in `rental_requests`; on
"reject" both lists lose the pair and `is_rented` keeps its value. -/
theorem HandleRentalRequest_accept_reject (s : Store) (pidS ridS : String) (pid rid : ObjectID)
    (hp : ObjectIDFromHex pidS = some pid) (hr : ObjectIDFromHex ridS = some rid) :
    ((HandleRentalRequest s pidS ridS "accept").1 = ⟨200, .message "Rental request accepted"⟩ ∧
      (∀ d, s.findOneProperty (propertyIdIs pid) = some d →
        ∃ d', (HandleRentalRequest s pidS ridS "accept").2.findOneProperty (propertyIdIs pid)
            = some d' ∧
          rid ∉ d'.requests ∧ d'.is_rented = true ∧ d'.rented_by_id = some rid) ∧
      (∀ u, s.findOneUser (userIdIs rid) = some u →
        ∃ u', (HandleRentalRequest s pidS ridS "accept").2.findOneUser (userIdIs rid)
            = some u' ∧
          pid ∉ u'.rental_requests)) ∧
    ((HandleRentalRequest s pidS ridS "reject").1 = ⟨200, .message "Rental request rejected"⟩ ∧
      (∀ d, s.findOneProperty (propertyIdIs pid) = some d →
        ∃ d', (HandleRentalRequest s pidS ridS "reject").2.findOneProperty (propertyIdIs pid)
            = some d' ∧
          rid ∉ d'.requests ∧ d'.is_rented = d.is_rented) ∧
      (∀ u, s.findOneUser (userIdIs rid) = some u →
        ∃ u', (HandleRentalRequest s pidS ridS "reject").2.findOneUser (userIdIs rid)
            = some u' ∧
          pid ∉ u'.rental_requests)) := by
  have hp0 := ObjectIDFromHex_ne_empty hp
  have hr0 := ObjectIDFromHex_ne_empty hr
  have hacc : HandleRentalRequest s pidS ridS "accept" =
      (⟨200, .message "Rental request accepted"⟩,
        { users := updateFirst (userIdIs rid)
            (fun d => { d with rented_properties := addToSet pid d.rented_properties })
            (updateFirst (userIdIs rid)
              (fun d => { d with rental_requests := pull pid d.rental_requests }) s.users),
          properties := updateFirst (propertyIdIs pid)
            (fun d => { d with is_rented := true, rented_by_id := some rid })
            (updateFirst (propertyIdIs pid)
              (fun d => { d with rental_requests := d.rental_requests.map (pull rid) })
              s.properties) }) := by
    simp [HandleRentalRequest, HandleRentalRequestWith, hp, hr, hp0, hr0, Store.updateOneProperty,
      Store.updateOneUser]
  have hrej : HandleRentalRequest s pidS ridS "reject" =
      (⟨200, .message "Rental request rejected"⟩,
        { users := updateFirst (userIdIs rid)
              (fun d => { d with rental_requests := pull pid d.rental_requests }) s.users,
          properties := updateFirst (propertyIdIs pid)
              (fun d => { d with rental_requests := d.rental_requests.map (pull rid) })
              s.properties }) := by
    simp [HandleRentalRequest, HandleRentalRequestWith, hp, hr, hp0, hr0, Store.updateOneProperty,
      Store.updateOneUser]
  rw [hacc, hrej]
  refine ⟨⟨rfl, ?_, ?_⟩, ⟨rfl, ?_, ?_⟩⟩
  · intro d hd
    unfold Store.findOneProperty at hd ⊢
    rw [find?_updateFirst_self _ _ (by intro x; rfl),
      find?_updateFirst_self _ _ (by intro x; rfl), hd]
    refine ⟨_, rfl, ?_, rfl, rfl⟩
    have := requests_pull d rid
    simp only [PropertyDoc.requests] at this ⊢
    simp [this]
  · intro u hu
    unfold Store.findOneUser at hu ⊢
    rw [find?_updateFirst_self _ _ (by intro x; rfl),
      find?_updateFirst_self _ _ (by intro x; rfl), hu]
    exact ⟨_, rfl, by simp⟩
  · intro d hd
    unfold Store.findOneProperty at hd ⊢
    rw [find?_updateFirst_self _ _ (by intro x; rfl), hd]
    refine ⟨_, rfl, ?_, rfl⟩
    rw [requests_pull]
    simp
  · intro u hu
    unfold Store.findOneUser at hu ⊢
    rw [find?_updateFirst_self _ _ (by intro x; rfl), hu]
    exact ⟨_, rfl, by simp⟩

/-- C2 at a store where user 3 has requested property 2: the ids parse and
accepting leaves the property rented by 3 with 3 out of its requests. -/
theorem HandleRentalRequest_accept_reject_witness :
    ObjectIDFromHex "000000000000000000000002" = some 2 ∧
    ObjectIDFromHex "000000000000000000000003" = some 3 ∧
    ∃ d', (HandleRentalRequest requestedStore "000000000000000000000002"
        "000000000000000000000003" "accept").2.findOneProperty (propertyIdIs 2) = some d' ∧
      3 ∉ d'.requests ∧ d'.is_rented = true ∧ d'.rented_by_id = some 3 :=
  ⟨by decide, by decide,
    (HandleRentalRequest_accept_reject requestedStore "000000000000000000000002"
      "000000000000000000000003" 2 3 (by decide) (by decide)).1.2.1 _ rfl⟩

/-! ## Like and unlike -/

/-- C3: a `LikeProperty` call that reports success (the id parses and an
email is supplied) leaves the email in the stored property's `liked_by` and
the property id in the stored user's `liked_properties`; an `UnlikeProperty`
call that reports success leaves the email out of `liked_by` and the id out
of `liked_properties`. -/
theorem LikeProperty_UnlikeProperty_membership (s : Store) (idS emailQuery : String)
    (body : Option Property) (pid : ObjectID) (email : String)
    (hp : ObjectIDFromHex idS = some pid)
    (he : emailFromQueryOrBody emailQuery body = some email) (hne : email ≠ "") :
    ((LikeProperty s idS emailQuery body).1 = ⟨200, .message "Property liked"⟩ ∧
      (∀ d, s.findOneProperty (propertyIdIs pid) = some d →
        ∃ d', (LikeProperty s idS emailQuery body).2.findOneProperty (propertyIdIs pid)
            = some d' ∧ email ∈ d'.liked_by) ∧
      (∀ u, s.findOneUser (emailIs email) = some u →
        ∃ u', (LikeProperty s idS emailQuery body).2.findOneUser (emailIs email)
            = some u' ∧ pid ∈ u'.liked)) ∧
    ((UnlikeProperty s idS emailQuery body).1 = ⟨200, .message "Property unliked"⟩ ∧
      (∀ d, s.findOneProperty (propertyIdIs pid) = some d →
        ∃ d', (UnlikeProperty s idS emailQuery body).2.findOneProperty (propertyIdIs pid)
            = some d' ∧ email ∉ d'.liked_by) ∧
      (∀ u, s.findOneUser (emailIs email) = some u →
        ∃ u', (UnlikeProperty s idS emailQuery body).2.findOneUser (emailIs email)
            = some u' ∧ pid ∉ u'.liked)) := by
  have hlike : LikeProperty s idS emailQuery body =
      (⟨200, .message "Property liked"⟩,
        { users := updateFirst (emailIs email)
            (fun u => { u with liked_properties := some (addToSet pid u.liked) }) s.users,
          properties := updateFirst (propertyIdIs pid)
            (fun d => { d with liked_by := addToSet email d.liked_by }) s.properties }) := by
    simp [LikeProperty, LikePropertyWith, hp, he, hne, Store.updateOneProperty, Store.updateOneUser]
  have hunlike : UnlikeProperty s idS emailQuery body =
      (⟨200, .message "Property unliked"⟩,
        { users := updateFirst (emailIs email)
            (fun u => { u with liked_properties := u.liked_properties.map (pull pid) })
            s.users,
          properties := updateFirst (propertyIdIs pid)
            (fun d => { d with liked_by := pull email d.liked_by }) s.properties }) := by
    simp [UnlikeProperty, UnlikePropertyWith, hp, he, hne, Store.updateOneProperty,
      Store.updateOneUser]
  rw [hlike, hunlike]
  refine ⟨⟨rfl, ?_, ?_⟩, ⟨rfl, ?_, ?_⟩⟩
  · intro d hd
    unfold Store.findOneProperty at hd ⊢
    rw [find?_updateFirst_self _ _ (by intro x; rfl), hd]
    exact ⟨_, rfl, by simp⟩
  · intro u hu
    unfold Store.findOneUser at hu ⊢
    rw [find?_updateFirst_self _ _ (by intro x; rfl), hu]
    exact ⟨_, rfl, by simp [UserDoc.liked]⟩
  · intro d hd
    unfold Store.findOneProperty at hd ⊢
    rw [find?_updateFirst_self _ _ (by intro x; rfl), hd]
    exact ⟨_, rfl, by simp⟩
  · intro u hu
    unfold Store.findOneUser at hu ⊢
    rw [find?_updateFirst_self _ _ (by intro x; rfl), hu]
    refine ⟨_, rfl, ?_⟩
    rw [liked_pull]
    simp

/-- C3 at a store holding property 2 and user `u@x.io`: the call is accepted
and after `UnlikeProperty` the user's `liked_properties` lacks the id. -/
theorem LikeProperty_UnlikeProperty_membership_witness :
    ObjectIDFromHex "000000000000000000000002" = some 2 ∧
    emailFromQueryOrBody "u@x.io" none = some "u@x.io" ∧ "u@x.io" ≠ "" ∧
    (∃ d', (LikeProperty requestedStore "000000000000000000000002" "u@x.io"
        none).2.findOneProperty (propertyIdIs 2) = some d' ∧ "u@x.io" ∈ d'.liked_by) ∧
    (∃ u', (LikeProperty requestedStore "000000000000000000000002" "u@x.io"
        none).2.findOneUser (emailIs "u@x.io") = some u' ∧ 2 ∈ u'.liked) :=
  ⟨by decide, by decide, by decide,
    (LikeProperty_UnlikeProperty_membership requestedStore "000000000000000000000002"
      "u@x.io" none 2 "u@x.io" (by decide) (by decide) (by decide)).1.2.1 _ rfl,
    (LikeProperty_UnlikeProperty_membership requestedStore "000000000000000000000002"
      "u@x.io" none 2 "u@x.io" (by decide) (by decide) (by decide)).1.2.2 _ rfl⟩

/-- C4, as stated, fails: after the requests of `duplicateRequestsTrace`
property 2 and user 3 exist, and two `RequestToRentProperty` calls for the
pair leave the property id twice in the user's `rental_requests`. -/
theorem RequestToRentProperty_twice_two_occurrences :
    ((run Store.empty duplicateRequestsTrace).findOneProperty (propertyIdIs 2)).isSome = true ∧
    ((run Store.empty duplicateRequestsTrace).findOneUser (userIdIs 3)).isSome = true ∧
    ((RequestToRentProperty
        (RequestToRentProperty (run Store.empty duplicateRequestsTrace)
          "000000000000000000000002" "000000000000000000000003").2
        "000000000000000000000002" "000000000000000000000003").2.findOneUser
          (userIdIs 3)).map (fun u => u.rental_requests.count 2) = some 2 := by
  decide

/-- C4, amended: when the property and the user exist, a second
`RequestToRentProperty` for the pair changes nothing after the first, both
calls report success, and after them the user id is in the property's
`rental_requests` and the property id in the user's, each exactly once
provided it occurred there at most once before. -/
theorem RequestToRentProperty_twice (s : Store) (pidS uidS : String) (pid uid : ObjectID)
    (d : PropertyDoc) (u : UserDoc)
    (hp : ObjectIDFromHex pidS = some pid) (hu : ObjectIDFromHex uidS = some uid)
    (hd : s.findOneProperty (propertyIdIs pid) = some d)
    (hud : s.findOneUser (userIdIs uid) = some u) :
    (RequestToRentProperty s pidS uidS).1 = ⟨200, .message "Rental request sent"⟩ ∧
    RequestToRentProperty (RequestToRentProperty s pidS uidS).2 pidS uidS =
      (⟨200, .message "Rental request sent"⟩, (RequestToRentProperty s pidS uidS).2) ∧
    ∃ d' u',
      (RequestToRentProperty s pidS uidS).2.findOneProperty (propertyIdIs pid) = some d' ∧
      (RequestToRentProperty s pidS uidS).2.findOneUser (userIdIs uid) = some u' ∧
      uid ∈ d'.requests ∧ pid ∈ u'.rental_requests ∧
      (d.requests.count uid ≤ 1 → d'.requests.count uid = 1) ∧
      (u.rental_requests.count pid ≤ 1 → u'.rental_requests.count pid = 1) := by
  have hp0 := ObjectIDFromHex_ne_empty hp
  have hu0 := ObjectIDFromHex_ne_empty hu
  have hreq : ∀ t : Store, RequestToRentProperty t pidS uidS =
      (⟨200, .message "Rental request sent"⟩,
        { users := updateFirst (userIdIs uid)
            (fun u => { u with rental_requests := addToSet pid u.rental_requests }) t.users,
          properties := updateFirst (propertyIdIs pid)
            (fun d => { d with rental_requests := some (addToSet uid d.requests) })
            t.properties }) := by
    intro t
    simp [RequestToRentProperty, RequestToRentPropertyWith, hp, hu, hp0, hu0,
      Store.updateOneProperty,
      Store.updateOneUser]
  rw [hreq s, hreq]
  refine ⟨rfl, ?_, ?_⟩
  · simp only [Prod.mk.injEq, true_and]
    rw [updateFirst_idem _ _ (by intro x; rfl)
        (by intro x; simp [addToSet_idem]),
      updateFirst_idem _ _ (by intro x; rfl)
        (by intro x; simp [PropertyDoc.requests, addToSet_idem])]
  · unfold Store.findOneProperty Store.findOneUser at *
    simp only
    rw [find?_updateFirst_self _ _ (by intro x; rfl), hd,
      find?_updateFirst_self _ _ (by intro x; rfl), hud]
    refine ⟨_, _, rfl, rfl, ?_, ?_, ?_, ?_⟩
    · simp [PropertyDoc.requests]
    · simp
    · intro h
      simpa [PropertyDoc.requests] using count_addToSet uid d.requests h
    · intro h
      simpa using count_addToSet pid u.rental_requests h

/-- C4, amended, at a store where user 3 has already requested property 2. -/
theorem RequestToRentProperty_twice_witness :
    ObjectIDFromHex "000000000000000000000002" = some 2 ∧
    ObjectIDFromHex "000000000000000000000003" = some 3 ∧
    (requestedStore.findOneProperty (propertyIdIs 2)).isSome = true ∧
    (requestedStore.findOneUser (userIdIs 3)).isSome = true ∧
    RequestToRentProperty
        (RequestToRentProperty requestedStore "000000000000000000000002"
          "000000000000000000000003").2
        "000000000000000000000002" "000000000000000000000003" =
      (⟨200, .message "Rental request sent"⟩,
        (RequestToRentProperty requestedStore "000000000000000000000002"
          "000000000000000000000003").2) :=
  ⟨by decide, by decide, by decide, by decide,
    (RequestToRentProperty_twice requestedStore "000000000000000000000002"
      "000000000000000000000003" 2 3 _ _ (by decide) (by decide) rfl rfl).2.1⟩

/-! ## Ownership -/

/-- C7 fails at an update whose email arrives in the query: the owner of
property 2 sends a body without `owner_email`; the call reports success and
the stored `owner_email`, `o@x.io` before, is empty afterwards. -/
theorem UpdateProperty_query_email_erases_owner :
    ((run Store.empty postedTrace).findOneProperty (propertyIdIs 2)).map
        (fun d => d.owner_email) = some "o@x.io" ∧
    (UpdateProperty (run Store.empty postedTrace) "000000000000000000000002"
        (some { Property.zero with Title := "loft" }) "o@x.io" 5).1 =
      ⟨200, .message "Property updated"⟩ ∧
    ((UpdateProperty (run Store.empty postedTrace) "000000000000000000000002"
        (some { Property.zero with Title := "loft" }) "o@x.io" 5).2.findOneProperty
          (propertyIdIs 2)).map (fun d => d.owner_email) = some "" := by
  decide

/-- C8: for a stored property, a caller email that is supplied and differs
from the stored `owner_email` makes `UpdateProperty` and `DeleteProperty`
answer 403 and return the store as it was. -/
theorem UpdateProperty_DeleteProperty_forbidden (s : Store) (idS : String) (pid : ObjectID)
    (d : PropertyDoc) (hp : ObjectIDFromHex idS = some pid)
    (hd : s.findOneProperty (propertyIdIs pid) = some d) :
    (∀ (body : Property) (emailQuery : String) (now : DateTime),
      (if body.OwnerEmail = "" then emailQuery else body.OwnerEmail) ≠ "" →
      (if body.OwnerEmail = "" then emailQuery else body.OwnerEmail) ≠ d.owner_email →
      UpdateProperty s idS (some body) emailQuery now =
        (⟨403, .error "You cannot update a property that doesn't belong to you"⟩, s)) ∧
    (∀ (emailQuery : String) (body : Option Property) (email : String),
      emailFromQueryOrBody emailQuery body = some email → email ≠ "" →
      email ≠ d.owner_email →
      DeleteProperty s idS emailQuery body =
        (⟨403, .error "You cannot delete a property that doesn't belong to you"⟩, s)) := by
  constructor
  · intro body emailQuery now hne hdiff
    simp only [UpdateProperty, UpdatePropertyWith, callFails_nil, found_false, hp, hd,
      decodeProperty]
    rw [if_neg hne, if_pos (fun h => hdiff h.symm)]
  · intro emailQuery body email he hne hdiff
    simp only [DeleteProperty, DeletePropertyWith, callFails_nil, found_false, hp, he, hd,
      decodeProperty]
    rw [if_neg hne, if_pos (fun h => hdiff h.symm)]

/-- C8 at the store of `postedTrace`: `u@x.io` is not the owner of property 2
and neither handler lets the caller through. -/
theorem UpdateProperty_DeleteProperty_forbidden_witness :
    ObjectIDFromHex "000000000000000000000002" = some 2 ∧
    ((run Store.empty postedTrace).findOneProperty (propertyIdIs 2)).isSome = true ∧
    UpdateProperty (run Store.empty postedTrace) "000000000000000000000002"
        (some { Property.zero with OwnerEmail := "u@x.io" }) "" 5 =
      (⟨403, .error "You cannot update a property that doesn't belong to you"⟩,
        run Store.empty postedTrace) ∧
    DeleteProperty (run Store.empty postedTrace) "000000000000000000000002" "u@x.io" none =
      (⟨403, .error "You cannot delete a property that doesn't belong to you"⟩,
        run Store.empty postedTrace) :=
  ⟨by decide, by decide,
    (UpdateProperty_DeleteProperty_forbidden (run Store.empty postedTrace)
      "000000000000000000000002" 2 _ (by decide) rfl).1
        { Property.zero with OwnerEmail := "u@x.io" } "" 5 (by decide) (by decide),
    (UpdateProperty_DeleteProperty_forbidden (run Store.empty postedTrace)
      "000000000000000000000002" 2 _ (by decide) rfl).2 "u@x.io" none "u@x.io"
        (by decide) (by decide) (by decide)⟩

/-! ## Search -/

theorem Atoi_empty : Atoi "" = (0, false) := by decide

theorem searchFilter_ignores (location minPrice maxPrice : String) :
    searchFilter location minPrice maxPrice =
      searchFilter location (if (Atoi minPrice).2 = true then minPrice else "")
        (if (Atoi maxPrice).2 = true then maxPrice else "") := by
  by_cases h1 : (Atoi minPrice).2 = true <;> by_cases h2 : (Atoi maxPrice).2 = true
  · simp [h1, h2]
  · have hmin : minPrice ≠ "" := by
      intro h; rw [h, Atoi_empty] at h1; cases h1
    simp [searchFilter, h1, h2, hmin, Atoi_empty]
  · have hmax : maxPrice ≠ "" := by
      intro h; rw [h, Atoi_empty] at h2; cases h2
    simp [searchFilter, h1, h2, hmax, Atoi_empty]
  · simp [searchFilter, h1, h2, Atoi_empty]

/-- C9, as stated, fails: `150.5` is a numeric lower bound, yet the filter
built from `min_price=150.5` admits a property whose price is 100. -/
theorem searchFilter_decimal_bound_ignored :
    (searchFilter "" "150.5" "").admits (sampleProperty 2 "o@x.io" "Austin" 100) = true ∧
    (sampleProperty 2 "o@x.io" "Austin" 100).price < 301 / 2 := by
  constructor
  · decide
  · norm_num [sampleProperty]

/-- C9, amended: the filter of `SearchProperties` admits a property exactly
when its location is the one asked for, if any, and its price respects each
bound that `strconv.Atoi` parses (an optional sign and decimal digits only,
within the 64-bit range); with `min_price=100` and `max_price=200` only
prices from 100 to 200 pass; a bound that does not parse, a decimal fraction
included, changes neither the filter nor the response: both are those of the
request without that bound. -/
theorem searchFilter_admits_iff (s : Store) (location minPrice maxPrice limitQuery
    skipQuery : String) (d : PropertyDoc) :
    ((searchFilter location minPrice maxPrice).admits d = true ↔
      (location = "" ∨ d.location = location) ∧
      ((Atoi minPrice).2 = true → ((Atoi minPrice).1 : ℚ) ≤ d.price) ∧
      ((Atoi maxPrice).2 = true → d.price ≤ ((Atoi maxPrice).1 : ℚ))) ∧
    ((searchFilter location "100" "200").admits d = true →
      100 ≤ d.price ∧ d.price ≤ 200) ∧
    SearchProperties s location minPrice maxPrice limitQuery skipQuery =
      SearchProperties s location (if (Atoi minPrice).2 = true then minPrice else "")
        (if (Atoi maxPrice).2 = true then maxPrice else "") limitQuery skipQuery := by
  have hiff : ∀ lo hi : String,
      ((searchFilter location lo hi).admits d = true ↔
        (location = "" ∨ d.location = location) ∧
        ((Atoi lo).2 = true → ((Atoi lo).1 : ℚ) ≤ d.price) ∧
        ((Atoi hi).2 = true → d.price ≤ ((Atoi hi).1 : ℚ))) := by
    intro lo hi
    by_cases hl : location = "" <;> by_cases h1 : (Atoi lo).2 = true <;>
      by_cases h2 : (Atoi hi).2 = true <;> by_cases hlo : lo = "" <;>
      by_cases hhi : hi = "" <;>
      simp_all [searchFilter, SearchFilter.admits, PriceFilter.admits, Atoi_empty]
  refine ⟨hiff minPrice maxPrice, ?_, ?_⟩
  · intro h
    have h100 : Atoi "100" = (100, true) := by decide
    have h200 : Atoi "200" = (200, true) := by decide
    have := (hiff "100" "200").mp h
    rw [h100, h200] at this
    simpa using this.2
  · simp only [SearchProperties]
    rw [← searchFilter_ignores]

/-! ## Homescreen -/

/-- C10 fails when the email arrives in the body: the stored user `u@x.io`
has no preferred locations, the body names Austin, and the handler answers
200 with the Austin property instead of 400. -/
theorem GetHomescreenProperties_body_locations_used :
    (noPreferenceStore.findOneUser (emailIs "u@x.io")).map
        (fun u => (decodeUser u).PreferredLocations) = some [] ∧
    GetHomescreenProperties noPreferenceStore ""
        (some { User.zero with Email := "u@x.io", PreferredLocations := ["Austin"] }) =
      ⟨200, .properties [decodeProperty (sampleProperty 2 "o@x.io" "Austin" 100)]⟩ ∧
    GetHomescreenProperties noPreferenceStore "u@x.io" none =
      ⟨400, .error "Preferred locations not set"⟩ := by
  decide

/-- With the email in the query, `GetHomescreenProperties` answers 400 for a
stored user without preferred locations and otherwise returns the properties
whose location is one of them. -/
theorem GetHomescreenProperties_query (s : Store) (email : String) (body : Option User)
    (u : UserDoc) (he : email ≠ "") (hu : s.findOneUser (emailIs email) = some u) :
    GetHomescreenProperties s email body =
      if (decodeUser u).PreferredLocations = [] then
        ⟨400, .error "Preferred locations not set"⟩
      else
        ⟨200, .properties ((s.properties.filter
          (fun d => decide (d.location ∈ (decodeUser u).PreferredLocations))).map
            decodeProperty)⟩ := by
  simp only [GetHomescreenProperties, if_neg he, homescreenFor, hu]
  obtain ⟨i, e, n, pic, loc, pl, posted, liked, rented, reqs, ca, ua⟩ := u
  cases pl with
  | none => simp [decodeUserInto, decodeUser, User.zero]
  | some l =>
    cases l with
    | nil => simp [decodeUserInto, decodeUser, User.zero]
    | cons a as =>
      have hfun : locationIn (a :: as) = fun d => decide (d.location ∈ a :: as) := rfl
      simp [decodeUserInto, decodeUser, User.zero, Store.findProperties, hfun]

/-! ## What each handler does to the store -/

theorem callFails_eq_true (failing : List Nat) (i : Nat) :
    callFails failing i = true ↔ i ∈ failing := by
  simp [callFails]

theorem callFails_eq_false (failing : List Nat) (i : Nat) :
    callFails failing i = false ↔ i ∉ failing := by
  simp [callFails]

theorem RegisterUserWith_store (failing : List Nat) (s : Store) (body : Option User)
    (newID : ObjectID) (now : DateTime) :
    (RegisterUserWith failing s body newID now).2 = s ∨
    ∃ user, body = some user ∧
      (0 ∈ failing ∨ s.findOneUser (emailIs user.Email) = none) ∧
      (∀ x ∈ s.users, x._id ≠ newID) ∧
      (RegisterUserWith failing s body newID now).2 =
        ⟨s.users ++ [encodeUser (newUser user newID now)], s.properties⟩ := by
  cases body with
  | none => exact Or.inl rfl
  | some user =>
    have hins : ∀ hlook : found (callFails failing 0) (s.findOneUser (emailIs user.Email)) = none,
        (RegisterUserWith failing s (some user) newID now).2 = s ∨
        ((∀ x ∈ s.users, x._id ≠ newID) ∧
          (RegisterUserWith failing s (some user) newID now).2 =
            ⟨s.users ++ [encodeUser (newUser user newID now)], s.properties⟩) := by
      intro hlook
      cases h1 : callFails failing 1 with
      | true => exact Or.inl (by simp [RegisterUserWith, hlook, Store.insertOneUser, h1])
      | false =>
        by_cases hany : (s.users.any fun x => x._id == newID) = true
        · left
          simp [RegisterUserWith, hlook, Store.insertOneUser, encodeUser, newUser, hany, h1]
        · right
          refine ⟨?_, ?_⟩
          · intro x hx hxe
            exact hany (List.any_eq_true.mpr ⟨x, hx, by simp [hxe]⟩)
          · simp [RegisterUserWith, hlook, Store.insertOneUser, encodeUser, newUser, hany, h1]
    cases h0 : callFails failing 0 with
    | true =>
      rcases hins (by simp [h0]) with e | ⟨hfresh, e⟩
      · exact Or.inl e
      · exact Or.inr ⟨user, rfl, Or.inl ((callFails_eq_true failing 0).mp h0), hfresh, e⟩
    | false =>
      cases hfind : s.findOneUser (emailIs user.Email) with
      | some d => exact Or.inl (by simp [RegisterUserWith, hfind, h0])
      | none =>
        rcases hins (by simp [h0, hfind]) with e | ⟨hfresh, e⟩
        · exact Or.inl e
        · exact Or.inr ⟨user, rfl, Or.inr hfind, hfresh, e⟩

theorem UpdateUserLocationWith_store (failing : List Nat) (s : Store) (email : String)
    (body : Option String) (now : DateTime) :
    (UpdateUserLocationWith failing s email body now).2 = s ∨
    ∃ location, (UpdateUserLocationWith failing s email body now).2 =
      ⟨updateFirst (emailIs email)
        (fun d => { d with location := location, updated_at := now }) s.users,
        s.properties⟩ := by
  cases body with
  | none => exact Or.inl rfl
  | some location =>
    cases h0 : callFails failing 0 with
    | true => exact Or.inl (by simp [UpdateUserLocationWith, Store.updateOneUser, h0])
    | false =>
      exact Or.inr ⟨location, by simp [UpdateUserLocationWith, Store.updateOneUser, h0]⟩

theorem UpdatePreferredLocationsWith_store (failing : List Nat) (s : Store) (email : String)
    (body : Option (List String)) (now : DateTime) :
    (UpdatePreferredLocationsWith failing s email body now).2 = s ∨
    ∃ locations, (UpdatePreferredLocationsWith failing s email body now).2 =
      ⟨updateFirst (emailIs email)
        (fun d => { d with preferred_locations := some locations, updated_at := now }) s.users,
        s.properties⟩ := by
  cases body with
  | none => exact Or.inl rfl
  | some locations =>
    cases h0 : callFails failing 0 with
    | true => exact Or.inl (by simp [UpdatePreferredLocationsWith, Store.updateOneUser, h0])
    | false =>
      exact Or.inr ⟨locations, by
        simp [UpdatePreferredLocationsWith, Store.updateOneUser, h0]⟩

/-- The store after `CreateProperty`: unchanged, or with the new document
appended and the owner's `posted_properties` extended, or, when the update of
the owner fails, with the new document appended only. -/
theorem CreatePropertyWith_store (failing : List Nat) (s : Store)
    (body : Option CreatePropertyInput) (email : String) (newID : ObjectID)
    (now1 now2 : DateTime) :
    (CreatePropertyWith failing s body email newID now1 now2).2 = s ∨
    ∃ d : PropertyDoc, d._id = newID ∧ d.is_rented = false ∧ d.rental_requests = none ∧
      (∀ x ∈ s.properties, x._id ≠ newID) ∧
      ((CreatePropertyWith failing s body email newID now1 now2).2 =
        ⟨updateFirst (emailIs email)
          (fun u => { u with posted_properties := some (u.posted ++ [newID]) }) s.users,
          s.properties ++ [d]⟩ ∨
       (CreatePropertyWith failing s body email newID now1 now2).2 =
        ⟨s.users, s.properties ++ [d]⟩) := by
  cases body with
  | none => exact Or.inl rfl
  | some input =>
    by_cases he : email = ""
    · exact Or.inl (by simp [CreatePropertyWith, he])
    · cases hl : callFails failing 0 with
      | true => exact Or.inl (by simp [CreatePropertyWith, he, hl])
      | false =>
      cases hfind : s.findOneUser (emailIs email) with
      | none => exact Or.inl (by simp [CreatePropertyWith, he, hfind, hl])
      | some u =>
        cases h0 : callFails failing 1 with
        | true =>
          exact Or.inl (by
            simp [CreatePropertyWith, hfind, he, Store.insertOneProperty, h0, hl])
        | false =>
          by_cases hany : (s.properties.any fun x => x._id == newID) = true
          · left
            simp [CreatePropertyWith, hfind, he, Store.insertOneProperty, encodeProperty, hany,
              h0, hl]
          · right
            refine ⟨encodeProperty
              { ID := newID, Title := input.Title, Description := input.Description,
                Price := input.Price, Location := input.Location,
                OwnerEmail := (decodeUser u).Email, OwnerName := (decodeUser u).Name,
                OwnerPic := (decodeUser u).ProfilePic, IsRented := false,
                RentedByEmail := "", RentalRequests := [], Thumbnail := input.Thumbnail,
                Pictures := input.Pictures, LikedBy := [], CreatedAt := now1,
                UpdatedAt := now2 }, rfl, rfl, rfl, ?_, ?_⟩
            · intro x hx hxe
              exact hany (List.any_eq_true.mpr ⟨x, hx, by simp [hxe]⟩)
            · cases h1 : callFails failing 2 with
              | true =>
                right
                simp [CreatePropertyWith, hfind, he, Store.insertOneProperty, encodeProperty,
                  hany, Store.updateOneUser, h0, h1, hl]
              | false =>
                left
                simp [CreatePropertyWith, hfind, he, Store.insertOneProperty, encodeProperty,
                  hany, Store.updateOneUser, h0, h1, hl]

theorem UpdatePropertyWith_store (failing : List Nat) (s : Store) (idParam : String)
    (body : Option Property) (emailQuery : String) (now : DateTime) :
    (UpdatePropertyWith failing s idParam body emailQuery now).2 = s ∨
    ∃ propertyID property d, ObjectIDFromHex idParam = some propertyID ∧ body = some property ∧
      s.findOneProperty (propertyIdIs propertyID) = some d ∧
      d.owner_email = (if property.OwnerEmail = "" then emailQuery else property.OwnerEmail) ∧
      (UpdatePropertyWith failing s idParam body emailQuery now).2 =
        ⟨s.users, updateFirst (propertyIdIs propertyID)
          (setProperty { property with UpdatedAt := now }) s.properties⟩ := by
  cases hid : ObjectIDFromHex idParam with
  | none => exact Or.inl (by simp [UpdatePropertyWith, hid])
  | some propertyID =>
    cases body with
    | none => exact Or.inl (by simp [UpdatePropertyWith, hid])
    | some property =>
      by_cases he : (if property.OwnerEmail = "" then emailQuery else property.OwnerEmail) = ""
      · exact Or.inl (by simp [UpdatePropertyWith, hid, he])
      · cases hl : callFails failing 0 with
        | true => exact Or.inl (by simp [UpdatePropertyWith, hid, he, hl])
        | false =>
        cases hfind : s.findOneProperty (propertyIdIs propertyID) with
        | none => exact Or.inl (by simp [UpdatePropertyWith, hid, he, hfind, hl])
        | some d =>
          by_cases hown : d.owner_email =
              (if property.OwnerEmail = "" then emailQuery else property.OwnerEmail)
          · by_cases himm : property.ID ≠ 0 ∧ property.ID ≠ propertyID
            · left
              simp [UpdatePropertyWith, hid, he, decodeProperty, hown, Store.setOneProperty,
                himm, hfind, hl]
            · cases h0 : callFails failing 1 with
              | true =>
                left
                have himm2 : ¬(property.ID ≠ 0 ∧ property.ID ≠ propertyID ∧
                    (s.findOneProperty (propertyIdIs propertyID)).isSome = true) := by
                  intro h; exact himm ⟨h.1, h.2.1⟩
                simp only [UpdatePropertyWith, hid, hfind, he, if_false, decodeProperty, hown,
                  ne_eq, not_true_eq_false, Store.setOneProperty, Store.updateOneProperty, h0,
                  if_true, hl, found_false]
                rw [if_neg (by simpa [hfind] using himm2)]
              | false =>
                right
                refine ⟨propertyID, property, d, rfl, rfl, hfind, hown, ?_⟩
                have himm2 : ¬(property.ID ≠ 0 ∧ property.ID ≠ propertyID ∧
                    (s.findOneProperty (propertyIdIs propertyID)).isSome = true) := by
                  intro h; exact himm ⟨h.1, h.2.1⟩
                simp only [UpdatePropertyWith, hid, hfind, he, if_false, decodeProperty, hown,
                  ne_eq, not_true_eq_false, Store.setOneProperty, Store.updateOneProperty, h0,
                  Bool.false_eq_true, hl, found_false]
                rw [if_neg (by simpa [hfind] using himm2)]
          · left
            simp [UpdatePropertyWith, hid, hfind, he, decodeProperty, hown, hl]

theorem DeletePropertyWith_store (failing : List Nat) (s : Store)
    (idParam emailQuery : String) (body : Option Property) :
    (DeletePropertyWith failing s idParam emailQuery body).2 = s ∨
    ∃ propertyID, (DeletePropertyWith failing s idParam emailQuery body).2 =
      ⟨s.users, s.properties.eraseP (propertyIdIs propertyID)⟩ := by
  cases hid : ObjectIDFromHex idParam with
  | none => exact Or.inl (by simp [DeletePropertyWith, hid])
  | some propertyID =>
    cases hem : emailFromQueryOrBody emailQuery body with
    | none => exact Or.inl (by simp [DeletePropertyWith, hid, hem])
    | some userEmail =>
      by_cases he : userEmail = ""
      · exact Or.inl (by simp [DeletePropertyWith, hid, hem, he])
      · cases hl : callFails failing 0 with
        | true => exact Or.inl (by simp [DeletePropertyWith, hid, hem, he, hl])
        | false =>
        cases hfind : s.findOneProperty (propertyIdIs propertyID) with
        | none => exact Or.inl (by simp [DeletePropertyWith, hid, hem, he, hfind, hl])
        | some d =>
          by_cases hown : d.owner_email = userEmail
          · cases h0 : callFails failing 1 with
            | true =>
              left
              simp [DeletePropertyWith, hid, hem, he, hfind, decodeProperty, hown,
                Store.deleteOneProperty, h0, hl]
            | false =>
              right
              exact ⟨propertyID, by
                simp [DeletePropertyWith, hid, hem, he, hfind, decodeProperty, hown,
                  Store.deleteOneProperty, h0, hl]⟩
          · left
            simp [DeletePropertyWith, hid, hem, he, hfind, decodeProperty, hown, hl]

/-- The store after `LikeProperty`: unchanged, or with both documents
updated, or, when the second write fails, with the property updated only. -/
theorem LikePropertyWith_store (failing : List Nat) (s : Store)
    (idParam emailQuery : String) (body : Option Property) :
    (LikePropertyWith failing s idParam emailQuery body).2 = s ∨
    ∃ propertyID userEmail,
      (LikePropertyWith failing s idParam emailQuery body).2 =
        ⟨updateFirst (emailIs userEmail)
            (fun u => { u with liked_properties := some (addToSet propertyID u.liked) })
            s.users,
          updateFirst (propertyIdIs propertyID)
            (fun d => { d with liked_by := addToSet userEmail d.liked_by }) s.properties⟩ ∨
      (LikePropertyWith failing s idParam emailQuery body).2 =
        ⟨s.users,
          updateFirst (propertyIdIs propertyID)
            (fun d => { d with liked_by := addToSet userEmail d.liked_by }) s.properties⟩ := by
  cases hid : ObjectIDFromHex idParam with
  | none => exact Or.inl (by simp [LikePropertyWith, hid])
  | some propertyID =>
    cases hem : emailFromQueryOrBody emailQuery body with
    | none => exact Or.inl (by simp [LikePropertyWith, hid, hem])
    | some userEmail =>
      by_cases he : userEmail = ""
      · exact Or.inl (by simp [LikePropertyWith, hid, hem, he])
      · cases h0 : callFails failing 0 with
        | true =>
          exact Or.inl (by simp [LikePropertyWith, hid, hem, he, Store.updateOneProperty, h0])
        | false =>
          right
          refine ⟨propertyID, userEmail, ?_⟩
          cases h1 : callFails failing 1 with
          | true =>
            right
            simp [LikePropertyWith, hid, hem, he, Store.updateOneProperty,
              Store.updateOneUser, h0, h1]
          | false =>
            left
            simp [LikePropertyWith, hid, hem, he, Store.updateOneProperty,
              Store.updateOneUser, h0, h1]

/-- The store after `UnlikeProperty`: unchanged, or with both documents
updated, or, when the second write fails, with the property updated only. -/
theorem UnlikePropertyWith_store (failing : List Nat) (s : Store)
    (idParam emailQuery : String) (body : Option Property) :
    (UnlikePropertyWith failing s idParam emailQuery body).2 = s ∨
    ∃ propertyID userEmail,
      (UnlikePropertyWith failing s idParam emailQuery body).2 =
        ⟨updateFirst (emailIs userEmail)
            (fun u => { u with liked_properties := u.liked_properties.map (pull propertyID) })
            s.users,
          updateFirst (propertyIdIs propertyID)
            (fun d => { d with liked_by := pull userEmail d.liked_by }) s.properties⟩ ∨
      (UnlikePropertyWith failing s idParam emailQuery body).2 =
        ⟨s.users,
          updateFirst (propertyIdIs propertyID)
            (fun d => { d with liked_by := pull userEmail d.liked_by }) s.properties⟩ := by
  cases hid : ObjectIDFromHex idParam with
  | none => exact Or.inl (by simp [UnlikePropertyWith, hid])
  | some propertyID =>
    cases hem : emailFromQueryOrBody emailQuery body with
    | none => exact Or.inl (by simp [UnlikePropertyWith, hid, hem])
    | some userEmail =>
      by_cases he : userEmail = ""
      · exact Or.inl (by simp [UnlikePropertyWith, hid, hem, he])
      · cases h0 : callFails failing 0 with
        | true =>
          exact Or.inl (by
            simp [UnlikePropertyWith, hid, hem, he, Store.updateOneProperty, h0])
        | false =>
          right
          refine ⟨propertyID, userEmail, ?_⟩
          cases h1 : callFails failing 1 with
          | true =>
            right
            simp [UnlikePropertyWith, hid, hem, he, Store.updateOneProperty,
              Store.updateOneUser, h0, h1]
          | false =>
            left
            simp [UnlikePropertyWith, hid, hem, he, Store.updateOneProperty,
              Store.updateOneUser, h0, h1]

/-- The store after `RequestToRentProperty`: unchanged, or with both
`rental_requests` extended, or, when the second write fails, with the
property's extended only. -/
theorem RequestToRentPropertyWith_store (failing : List Nat) (s : Store)
    (propertyIDParam userIDParam : String) :
    (RequestToRentPropertyWith failing s propertyIDParam userIDParam).2 = s ∨
    ∃ propertyID userID, ObjectIDFromHex propertyIDParam = some propertyID ∧
      ObjectIDFromHex userIDParam = some userID ∧
      ((RequestToRentPropertyWith failing s propertyIDParam userIDParam).2 =
        ⟨updateFirst (userIdIs userID)
            (fun u => { u with rental_requests := addToSet propertyID u.rental_requests })
            s.users,
          updateFirst (propertyIdIs propertyID)
            (fun d => { d with rental_requests := some (addToSet userID d.requests) })
            s.properties⟩ ∨
       ((0 ∉ failing ∧ 1 ∈ failing) ∧
        (RequestToRentPropertyWith failing s propertyIDParam userIDParam).2 =
          ⟨s.users,
            updateFirst (propertyIdIs propertyID)
              (fun d => { d with rental_requests := some (addToSet userID d.requests) })
              s.properties⟩)) := by
  by_cases hempty : propertyIDParam = "" ∨ userIDParam = ""
  · exact Or.inl (by simp [RequestToRentPropertyWith, hempty])
  · cases hid : ObjectIDFromHex propertyIDParam with
    | none => exact Or.inl (by simp [RequestToRentPropertyWith, hempty, hid])
    | some propertyID =>
      cases hu : ObjectIDFromHex userIDParam with
      | none => exact Or.inl (by simp [RequestToRentPropertyWith, hempty, hid, hu])
      | some userID =>
        cases h0 : callFails failing 0 with
        | true =>
          exact Or.inl (by
            simp [RequestToRentPropertyWith, hempty, hid, hu, Store.updateOneProperty, h0])
        | false =>
          right
          refine ⟨propertyID, userID, rfl, rfl, ?_⟩
          cases h1 : callFails failing 1 with
          | true =>
            right
            refine ⟨⟨(callFails_eq_false failing 0).mp h0,
              (callFails_eq_true failing 1).mp h1⟩, ?_⟩
            simp [RequestToRentPropertyWith, hempty, hid, hu, Store.updateOneProperty,
              Store.updateOneUser, h0, h1]
          | false =>
            left
            simp [RequestToRentPropertyWith, hempty, hid, hu, Store.updateOneProperty,
              Store.updateOneUser, h0, h1]

/-- The store after `HandleRentalRequest`: unchanged; or with the request
removed on both sides; or with that and the rental recorded on both sides;
or, when a write fails after an earlier one was served, with the request
removed from the property only, or with the rental recorded on the property
only. -/
theorem HandleRentalRequestWith_store (failing : List Nat) (s : Store)
    (propertyIDParam renterIDParam action : String) :
    (HandleRentalRequestWith failing s propertyIDParam renterIDParam action).2 = s ∨
    ∃ propertyID renterID,
      (HandleRentalRequestWith failing s propertyIDParam renterIDParam action).2 =
        ⟨updateFirst (userIdIs renterID)
            (fun u => { u with rental_requests := pull propertyID u.rental_requests })
            s.users,
          updateFirst (propertyIdIs propertyID)
            (fun d => { d with rental_requests := d.rental_requests.map (pull renterID) })
            s.properties⟩ ∨
      (HandleRentalRequestWith failing s propertyIDParam renterIDParam action).2 =
        ⟨updateFirst (userIdIs renterID)
            (fun u => { u with rented_properties := addToSet propertyID u.rented_properties })
            (updateFirst (userIdIs renterID)
              (fun u => { u with rental_requests := pull propertyID u.rental_requests })
              s.users),
          updateFirst (propertyIdIs propertyID)
            (fun d => { d with is_rented := true, rented_by_id := some renterID })
            (updateFirst (propertyIdIs propertyID)
              (fun d => { d with rental_requests := d.rental_requests.map (pull renterID) })
              s.properties)⟩ ∨
      ((0 ∉ failing ∧ 1 ∈ failing) ∧
        (HandleRentalRequestWith failing s propertyIDParam renterIDParam action).2 =
          ⟨s.users,
            updateFirst (propertyIdIs propertyID)
              (fun d => { d with rental_requests := d.rental_requests.map (pull renterID) })
              s.properties⟩) ∨
      (HandleRentalRequestWith failing s propertyIDParam renterIDParam action).2 =
        ⟨updateFirst (userIdIs renterID)
            (fun u => { u with rental_requests := pull propertyID u.rental_requests })
            s.users,
          updateFirst (propertyIdIs propertyID)
            (fun d => { d with is_rented := true, rented_by_id := some renterID })
            (updateFirst (propertyIdIs propertyID)
              (fun d => { d with rental_requests := d.rental_requests.map (pull renterID) })
              s.properties)⟩ := by
  by_cases hempty : propertyIDParam = "" ∨ renterIDParam = "" ∨ action = ""
  · exact Or.inl (by simp [HandleRentalRequestWith, hempty])
  · cases hid : ObjectIDFromHex propertyIDParam with
    | none => exact Or.inl (by simp [HandleRentalRequestWith, hempty, hid])
    | some propertyID =>
      cases hu : ObjectIDFromHex renterIDParam with
      | none => exact Or.inl (by simp [HandleRentalRequestWith, hempty, hid, hu])
      | some renterID =>
        cases h0 : callFails failing 0 with
        | true =>
          exact Or.inl (by
            simp [HandleRentalRequestWith, hempty, hid, hu, Store.updateOneProperty, h0])
        | false =>
          right
          refine ⟨propertyID, renterID, ?_⟩
          cases h1 : callFails failing 1 with
          | true =>
            right; right; left
            refine ⟨⟨(callFails_eq_false failing 0).mp h0,
              (callFails_eq_true failing 1).mp h1⟩, ?_⟩
            simp [HandleRentalRequestWith, hempty, hid, hu, Store.updateOneProperty,
              Store.updateOneUser, h0, h1]
          | false =>
            by_cases hacc : action = "accept"
            · have hempty2 : ¬(propertyIDParam = "" ∨ renterIDParam = "") := by
                intro h
                exact hempty (h.elim Or.inl (fun h2 => Or.inr (Or.inl h2)))
              cases h2 : callFails failing 2 with
              | true =>
                left
                simp [HandleRentalRequestWith, hid, hu, hacc, hempty2,
                  Store.updateOneProperty, Store.updateOneUser, h0, h1, h2]
              | false =>
                cases h3 : callFails failing 3 with
                | true =>
                  right; right; right
                  simp [HandleRentalRequestWith, hid, hu, hacc, hempty2,
                    Store.updateOneProperty, Store.updateOneUser, h0, h1, h2, h3]
                | false =>
                  right; left
                  simp [HandleRentalRequestWith, hid, hu, hacc, hempty2,
                    Store.updateOneProperty, Store.updateOneUser, h0, h1, h2, h3]
            · left
              simp [HandleRentalRequestWith, hempty, hid, hu, hacc, Store.updateOneProperty,
                Store.updateOneUser, h0, h1]

/-! ## Rented properties -/

theorem rentedOk_updateFirst (l : List PropertyDoc) (p : PropertyDoc → Bool)
    (f : PropertyDoc → PropertyDoc) (h : ∀ d ∈ l, d.rentedOk)
    (hf : ∀ d, l.find? p = some d → d.rentedOk → (f d).rentedOk) :
    ∀ d ∈ updateFirst p f l, d.rentedOk := by
  intro d hd
  rcases mem_updateFirst p f l d hd with hmem | ⟨y, hy, rfl⟩
  · exact h d hmem
  · exact hf y hy (h y (List.mem_of_find?_eq_some hy))

theorem rentedOk_of_fields {d e : PropertyDoc} (h : d.rentedOk)
    (h1 : e.is_rented = d.is_rented) (h2 : e.rented_by_id = d.rented_by_id)
    (h3 : ∀ r, r ∈ e.requests → r ∈ d.requests) : e.rentedOk := by
  intro hr
  obtain ⟨r, hr1, hr2⟩ := h (by rw [← h1]; exact hr)
  exact ⟨r, by rw [h2]; exact hr1, fun hmem => hr2 (h3 r hmem)⟩

theorem RentedInv_step (s : Store) (r : Request) (h : RentedInv s)
    (hg : rentedGuard s r = true) : RentedInv (handle s r).2 := by
  cases r with
  | registerUser body newID now failing =>
    rcases RegisterUserWith_store failing s body newID now with e | ⟨_, _, _, _, e⟩ <;>
      simp only [handle, e] <;> exact h
  | updateUserLocation email body now failing =>
    rcases UpdateUserLocationWith_store failing s email body now with e | ⟨_, e⟩ <;>
      simp only [handle, e] <;> exact h
  | updatePreferredLocations email body now failing =>
    rcases UpdatePreferredLocationsWith_store failing s email body now with e | ⟨_, e⟩ <;>
      simp only [handle, e] <;> exact h
  | createProperty body email newID now1 now2 failing =>
    have hnew : ∀ d : PropertyDoc, d.is_rented = false →
        ∀ x ∈ s.properties ++ [d], x.rentedOk := by
      intro d hd x hx
      rcases List.mem_append.mp hx with hx | hx
      · exact h x hx
      · rw [List.mem_singleton.mp hx]
        intro hr
        rw [hd] at hr
        cases hr
    rcases CreatePropertyWith_store failing s body email newID now1 now2 with
      e | ⟨d, _, hd, _, _, e | e⟩
    · simp only [handle, e]; exact h
    · simp only [handle, e]; exact hnew d hd
    · simp only [handle, e]; exact hnew d hd
  | updateProperty idParam body emailQuery now failing =>
    rcases UpdatePropertyWith_store failing s idParam body emailQuery now with
      e | ⟨pid, property, d, hid, hb, hfind, _, e⟩
    · simp only [handle, e]; exact h
    · simp only [handle, e]
      subst hb
      simp only [rentedGuard, hid, hfind, Bool.or_eq_true, Bool.not_eq_true', Bool.and_eq_true,
        decide_eq_true_eq] at hg
      apply rentedOk_updateFirst _ _ _ h
      intro x hx hxok
      have hxd : x = d := by
        unfold Store.findOneProperty at hfind
        rw [hfind] at hx
        exact (Option.some.inj hx).symm
      subst hxd
      rcases hg with hfalse | ⟨hnone, _⟩
      · intro hr
        simp [setProperty, hfalse] at hr
      · intro _
        obtain ⟨r, hr1, hr2⟩ := hxok (by assumption)
        exact ⟨r, hr1, by simpa [setProperty, PropertyDoc.requests, hnone] using hr2⟩
  | deleteProperty idParam emailQuery body failing =>
    rcases DeletePropertyWith_store failing s idParam emailQuery body with e | ⟨pid, e⟩
    · simp only [handle, e]; exact h
    · simp only [handle, e]
      intro x hx
      exact h x (List.mem_of_mem_eraseP hx)
  | likeProperty idParam emailQuery body failing =>
    rcases LikePropertyWith_store failing s idParam emailQuery body with
      e | ⟨pid, email, e | e⟩
    · simp only [handle, e]; exact h
    all_goals
      simp only [handle, e]
      apply rentedOk_updateFirst _ _ _ h
      intro x _ hx
      exact rentedOk_of_fields hx rfl rfl (fun _ hr => hr)
  | unlikeProperty idParam emailQuery body failing =>
    rcases UnlikePropertyWith_store failing s idParam emailQuery body with
      e | ⟨pid, email, e | e⟩
    · simp only [handle, e]; exact h
    all_goals
      simp only [handle, e]
      apply rentedOk_updateFirst _ _ _ h
      intro x _ hx
      exact rentedOk_of_fields hx rfl rfl (fun _ hr => hr)
  | requestToRentProperty propertyIDParam userIDParam failing =>
    rcases RequestToRentPropertyWith_store failing s propertyIDParam userIDParam with
      e | ⟨pid, uid, hp, hu, e | ⟨_, e⟩⟩
    · simp only [handle, e]; exact h
    all_goals
      simp only [handle, e]
      apply rentedOk_updateFirst _ _ _ h
      intro x hfind hx hr
      have hfind2 : s.findOneProperty (propertyIdIs pid) = some x := hfind
      simp only [rentedGuard, hp, hu, hfind2] at hg
      obtain ⟨r, hr1, hr2⟩ := hx hr
      refine ⟨r, hr1, ?_⟩
      have hne : r ≠ uid := by
        intro hru
        subst hru
        have hr3 : x.is_rented = true := hr
        simp [hr3, hr1] at hg
      simp [PropertyDoc.requests] at hr2 ⊢
      exact ⟨hr2, hne⟩
  | handleRentalRequest propertyIDParam renterIDParam action failing =>
    have hpull : ∀ pid rid, ∀ d ∈ updateFirst (propertyIdIs pid)
        (fun d => { d with rental_requests := d.rental_requests.map (pull rid) })
        s.properties, d.rentedOk := by
      intro pid rid
      apply rentedOk_updateFirst _ _ _ h
      intro x _ hx
      refine rentedOk_of_fields hx rfl rfl ?_
      intro r hr
      rw [requests_pull] at hr
      exact ((mem_pull _ _ _).mp hr).1
    have hset : ∀ pid rid, ∀ d ∈ updateFirst (propertyIdIs pid)
        (fun d => { d with is_rented := true, rented_by_id := some rid })
        (updateFirst (propertyIdIs pid)
          (fun d => { d with rental_requests := d.rental_requests.map (pull rid) })
          s.properties), d.rentedOk := by
      intro pid rid
      apply rentedOk_updateFirst _ _ _ (hpull pid rid)
      intro x hfind _ _
      rw [find?_updateFirst_self _ _ (by intro y; rfl)] at hfind
      cases hy : s.properties.find? (propertyIdIs pid) with
      | none => rw [hy] at hfind; cases hfind
      | some y =>
        rw [hy] at hfind
        have hx : x = { y with rental_requests := y.rental_requests.map (pull rid) } :=
          (Option.some.inj hfind).symm
        subst hx
        refine ⟨rid, rfl, ?_⟩
        have := requests_pull y rid
        simp only [PropertyDoc.requests] at this ⊢
        simp [this]
    rcases HandleRentalRequestWith_store failing s propertyIDParam renterIDParam action with
      e | ⟨pid, rid, e | e | ⟨_, e⟩ | e⟩
    · simp only [handle, e]; exact h
    · simp only [handle, e]; exact hpull pid rid
    · simp only [handle, e]; exact hset pid rid
    · simp only [handle, e]; exact hpull pid rid
    · simp only [handle, e]; exact hset pid rid

/-- C5, as stated, fails: after an accepted renter requests the property
again, the reachable store holds a rented property whose renter is listed in
its `rental_requests`. -/
theorem RentedInv_fails_after_second_request :
    Reachable (run Store.empty rentedAgainTrace) ∧
    ¬ RentedInv (run Store.empty rentedAgainTrace) := by
  refine ⟨⟨_, rfl⟩, ?_⟩
  intro h
  have hmem : { sampleProperty 2 "o@x.io" "Austin" 100 with
      title := "flat", is_rented := true, rental_requests := some [3],
      rented_by_id := some 3 } ∈ (run Store.empty rentedAgainTrace).properties := by
    decide
  obtain ⟨r, hr1, hr2⟩ := h _ hmem rfl
  cases hr1
  exact hr2 (by decide)

/-- C5, amended: in every store reached from the empty store by handler
calls among which no `UpdateProperty` body sets `is_rented` and no
`RequestToRentProperty` comes from the recorded renter of a rented property,
every property with `is_rented = true` has `rented_by_id` set and that id is
not in its `rental_requests`. -/
theorem RentedInv_of_guarded (rs : List Request)
    (hg : guarded rentedGuard Store.empty rs = true) :
    ∀ d ∈ (run Store.empty rs).properties,
      d.is_rented = true → ∃ r, d.rented_by_id = some r ∧ r ∉ d.requests := by
  have hgen : ∀ (rs : List Request) (s : Store), RentedInv s →
      guarded rentedGuard s rs = true → RentedInv (run s rs) := by
    intro rs
    induction rs with
    | nil => intro s h _; exact h
    | cons r rs ih =>
      intro s h hg
      simp only [guarded, Bool.and_eq_true] at hg
      exact ih _ (RentedInv_step s r h hg.1) hg.2
  exact hgen rs Store.empty (by intro d hd; cases hd) hg

/-- C5, amended, at a trace that rents property 2 to user 3: the trace passes
the guard and the stored property names its renter. -/
theorem RentedInv_of_guarded_witness :
    guarded rentedGuard Store.empty rentedTrace = true ∧
    (∃ d ∈ (run Store.empty rentedTrace).properties, d.is_rented = true) ∧
    ∀ d ∈ (run Store.empty rentedTrace).properties,
      d.is_rented = true → ∃ r, d.rented_by_id = some r ∧ r ∉ d.requests :=
  ⟨by decide, ⟨_, List.mem_singleton.mpr rfl, by decide⟩,
    RentedInv_of_guarded rentedTrace (by decide)⟩

/-! ## Agreement of the two request lists -/

theorem map_updateFirst_of_preserve {α β : Type} (g : α → β) (p : α → Bool) (f : α → α)
    (hf : ∀ x, g (f x) = g x) (l : List α) : (updateFirst p f l).map g = l.map g := by
  induction l with
  | nil => rfl
  | cons x xs ih =>
    by_cases hx : p x = true
    · simp [updateFirst, hx, hf]
    · simp [updateFirst, hx, ih]

/-- The paired writes are not atomic: when the second write of a
`RequestToRentProperty` call fails after the first was served, the call
answers 500 and leaves a property that lists a user who does not list the
property, although every body and every generated id passes
`agreeBodyGuard`. -/
theorem Agree_fails_after_failed_write :
    guarded agreeBodyGuard Store.empty halfRequestTrace = true ∧
    (RequestToRentPropertyWith [1]
      (run Store.empty
        (postedTrace ++ [.registerUser (some (sampleBody "u@x.io" [])) 3 0 []]))
      "000000000000000000000002" "000000000000000000000003").1.status = 500 ∧
    ¬ Agree (run Store.empty halfRequestTrace) := by
  refine ⟨by decide, by decide, ?_⟩
  intro h
  have hd : { sampleProperty 2 "o@x.io" "Austin" 100 with
      title := "flat", rental_requests := some [3] } ∈
      (run Store.empty halfRequestTrace).properties := by
    decide
  have hu : sampleUser 3 "u@x.io" [] ∈ (run Store.empty halfRequestTrace).users := by
    decide
  have := (h _ hd _ hu).mp (by decide)
  exact absurd this (by decide)

theorem usersWithEmail_congr (s t : Store) (email : String)
    (h : t.users.map (fun u => u.email) = s.users.map (fun u => u.email)) :
    usersWithEmail t email = usersWithEmail s email := by
  have key : ∀ l : List UserDoc,
      l.countP (emailIs email) = (l.map (fun u => u.email)).countP (fun e => e == email) := by
    intro l
    rw [List.countP_map]
    rfl
  unfold usersWithEmail
  rw [key, key, h]

theorem usersWithEmail_step (s : Store) (r : Request)
    (h : ∀ email, usersWithEmail s email ≤ 1) (hg : lookupGuard s r = true) :
    ∀ email, usersWithEmail (handle s r).2 email ≤ 1 := by
  intro email
  cases r with
  | registerUser body newID now failing =>
    rcases RegisterUserWith_store failing s body newID now with
      e | ⟨user, _, hf | hfind, _, e⟩
    · simp only [handle, e]; exact h email
    · simp [lookupGuard, hf] at hg
    · simp only [handle, e, usersWithEmail, List.countP_append]
      by_cases he : user.Email = email
      · have hzero : s.users.countP (emailIs email) = 0 := by
          rw [List.countP_eq_zero]
          unfold Store.findOneUser at hfind
          intro x hx
          have := List.find?_eq_none.mp hfind x hx
          rw [he] at this
          simpa using this
        rw [hzero, Nat.zero_add]
        exact List.countP_le_length (emailIs email)
      · have := h email
        unfold usersWithEmail at this
        simp [List.countP_cons, emailIs, encodeUser, newUser, he]
        exact this
  | updateUserLocation email2 body now failing =>
    rcases UpdateUserLocationWith_store failing s email2 body now with e | ⟨_, e⟩
    · simp only [handle, e]; exact h email
    · simp only [handle, e]
      rw [usersWithEmail_congr s _ email
        (map_updateFirst_of_preserve _ _ _ (by intro _; rfl) _)]
      exact h email
  | updatePreferredLocations email2 body now failing =>
    rcases UpdatePreferredLocationsWith_store failing s email2 body now with e | ⟨_, e⟩
    · simp only [handle, e]; exact h email
    · simp only [handle, e]
      rw [usersWithEmail_congr s _ email
        (map_updateFirst_of_preserve _ _ _ (by intro _; rfl) _)]
      exact h email
  | createProperty body email2 newID now1 now2 failing =>
    rcases CreatePropertyWith_store failing s body email2 newID now1 now2 with
      e | ⟨d, _, _, _, _, e | e⟩
    · simp only [handle, e]; exact h email
    · simp only [handle, e]
      rw [usersWithEmail_congr s _ email
        (map_updateFirst_of_preserve _ _ _ (by intro _; rfl) _)]
      exact h email
    · simp only [handle, e]
      exact h email
  | updateProperty idParam body emailQuery now failing =>
    rcases UpdatePropertyWith_store failing s idParam body emailQuery now with
      e | ⟨_, _, _, _, _, _, _, e⟩
    · simp only [handle, e]; exact h email
    · simp only [handle, e]
      exact h email
  | deleteProperty idParam emailQuery body failing =>
    rcases DeletePropertyWith_store failing s idParam emailQuery body with e | ⟨_, e⟩
    · simp only [handle, e]; exact h email
    · simp only [handle, e]
      exact h email
  | likeProperty idParam emailQuery body failing =>
    rcases LikePropertyWith_store failing s idParam emailQuery body with e | ⟨_, _, e | e⟩
    · simp only [handle, e]; exact h email
    · simp only [handle, e]
      rw [usersWithEmail_congr s _ email
        (map_updateFirst_of_preserve _ _ _ (by intro _; rfl) _)]
      exact h email
    · simp only [handle, e]
      exact h email
  | unlikeProperty idParam emailQuery body failing =>
    rcases UnlikePropertyWith_store failing s idParam emailQuery body with
      e | ⟨_, _, e | e⟩
    · simp only [handle, e]; exact h email
    · simp only [handle, e]
      rw [usersWithEmail_congr s _ email
        (map_updateFirst_of_preserve _ _ _ (by intro _; rfl) _)]
      exact h email
    · simp only [handle, e]
      exact h email
  | requestToRentProperty propertyIDParam userIDParam failing =>
    rcases RequestToRentPropertyWith_store failing s propertyIDParam userIDParam with
      e | ⟨_, _, _, _, e | ⟨_, e⟩⟩
    · simp only [handle, e]; exact h email
    · simp only [handle, e]
      rw [usersWithEmail_congr s _ email
        (map_updateFirst_of_preserve _ _ _ (by intro _; rfl) _)]
      exact h email
    · simp only [handle, e]
      exact h email
  | handleRentalRequest propertyIDParam renterIDParam action failing =>
    rcases HandleRentalRequestWith_store failing s propertyIDParam renterIDParam action with
      e | ⟨_, _, e | e | ⟨_, e⟩ | e⟩
    · simp only [handle, e]; exact h email
    · simp only [handle, e]
      rw [usersWithEmail_congr s _ email
        (map_updateFirst_of_preserve _ _ _ (by intro _; rfl) _)]
      exact h email
    · simp only [handle, e]
      rw [usersWithEmail_congr s _ email
        ((map_updateFirst_of_preserve _ _ _ (by intro _; rfl) _).trans
          (map_updateFirst_of_preserve _ _ _ (by intro _; rfl) _))]
      exact h email
    · simp only [handle, e]
      exact h email
    · simp only [handle, e]
      rw [usersWithEmail_congr s _ email
        (map_updateFirst_of_preserve _ _ _ (by intro _; rfl) _)]
      exact h email

/-- Handler calls served one after the other never leave two user documents
with one email, whichever of their store calls fail, as long as the lookup of
no `RegisterUser` call fails. -/
theorem usersWithEmail_le_one_of_guarded (rs : List Request)
    (hg : guarded lookupGuard Store.empty rs = true) (email : String) :
    usersWithEmail (run Store.empty rs) email ≤ 1 := by
  have hgen : ∀ (rs : List Request) (s : Store), (∀ email, usersWithEmail s email ≤ 1) →
      guarded lookupGuard s rs = true → ∀ email, usersWithEmail (run s rs) email ≤ 1 := by
    intro rs
    induction rs with
    | nil => intro s h _; exact h
    | cons r rs ih =>
      intro s h hg
      simp only [guarded, Bool.and_eq_true] at hg
      exact ih _ (usersWithEmail_step s r h hg.1) hg.2
  exact hgen rs Store.empty (by intro e; simp [usersWithEmail, Store.empty]) hg email

/-! ## Reverse lookups -/

/-- C11 fails for `GetLikedProperties` and `GetPostedProperties`: a user who
has just registered has no liked and no posted properties, and both handlers
answer 500, while `GetLikedPropertiesByUser` answers 200 with the empty
list. -/
theorem GetLikedProperties_GetPostedProperties_error_on_new_user :
    ((run Store.empty registeredTrace).findOneUser (emailIs "u@x.io")).map
        (fun u => ((decodeUser u).LikedProperties, (decodeUser u).PostedProperties)) =
      some ([], []) ∧
    GetLikedProperties (run Store.empty registeredTrace) "u@x.io" =
      ⟨500, .error "Failed to fetch properties"⟩ ∧
    GetPostedProperties (run Store.empty registeredTrace) "u@x.io" =
      ⟨500, .error "Failed to fetch properties"⟩ ∧
    GetLikedPropertiesByUser (run Store.empty registeredTrace) "u@x.io" =
      ⟨200, .properties []⟩ := by
  decide

/-- C12 fails for a body that carries the reference sequences: the new user
is stored, and returned, with the body's `rented_properties` and
`rental_requests`; only `posted_properties` and `liked_properties` are
emptied. -/
theorem RegisterUser_keeps_rented_and_requests :
    (RegisterUser Store.empty (some referencesBody) 3 10).1 =
      ⟨201, .user { referencesBody with
        ID := 3, PostedProperties := [], LikedProperties := [], CreatedAt := 10,
        UpdatedAt := 10 }⟩ ∧
    ((RegisterUser Store.empty (some referencesBody) 3 10).2.findOneUser
        (emailIs "u@x.io")).map
      (fun u => (u.posted, u.liked, u.rented_properties, u.rental_requests)) =
      some ([], [], [9], [9]) := by
  decide

/-- C14 fails for a property that never received a request: its document has
no `rental_requests` field, the `$match` stage lets it through, and the
handler returns it with no requesting users. -/
theorem GetRentalRequestsForUserProperties_returns_unrequested :
    (run Store.empty postedTrace).properties.map (fun d => d.rental_requests) = [none] ∧
    GetRentalRequestsForUserProperties (run Store.empty postedTrace) "o@x.io" =
      ⟨200, .joined ((run Store.empty postedTrace).properties.map (fun d => (d, [])))⟩ := by
  decide

/-! ## Creating a property -/

/-- C15, as stated, fails: in the empty store `GetHomescreenProperties`
answers 500 for an unknown user, and `UpdateProperty` and `DeleteProperty`
answer 403 for an unknown property. -/
theorem absent_document_not_always_404 :
    (GetHomescreenProperties Store.empty "u@x.io" none).status = 500 ∧
    (UpdateProperty Store.empty "000000000000000000000002"
        (some { Property.zero with OwnerEmail := "u@x.io" }) "" 5).1.status = 403 ∧
    (DeleteProperty Store.empty "000000000000000000000002" "u@x.io" none).1.status = 403 := by
  decide

/-- C15, amended: when the user is absent, `CreateProperty`, `GetUserByEmail`,
`GetLikedProperties`, `GetPostedProperties` and `GetLikedPropertiesByUser`
answer 404; `GetHomescreenProperties` answers 500; and when the property is
absent, `UpdateProperty` and `DeleteProperty` answer 403, the response they
give to a caller who is not the owner.  None of them changes the store. -/
theorem absent_document_statuses (s : Store) :
    (∀ (email : String) (input : CreatePropertyInput) (newID : ObjectID) (now1 now2 : DateTime),
      email ≠ "" → s.findOneUser (emailIs email) = none →
      CreateProperty s (some input) email newID now1 now2 =
        (⟨404, .error "User not found"⟩, s)) ∧
    (∀ email : String, s.findOneUser (emailIs email) = none →
      GetUserByEmail s email = ⟨404, .error "User not found"⟩ ∧
      GetLikedProperties s email = ⟨404, .error "User not found"⟩ ∧
      GetPostedProperties s email = ⟨404, .error "User not found"⟩ ∧
      (email ≠ "" → GetLikedPropertiesByUser s email = ⟨404, .error "User not found"⟩) ∧
      (email ≠ "" → ∀ body, GetHomescreenProperties s email body =
        ⟨500, .error "Failed to fetch user details"⟩) ∧
      (∀ body : User, body.Email = email → GetHomescreenProperties s "" (some body) =
        ⟨500, .error "Failed to fetch user details"⟩)) ∧
    (∀ (idS : String) (pid : ObjectID), ObjectIDFromHex idS = some pid →
      s.findOneProperty (propertyIdIs pid) = none →
      (∀ (body : Property) (emailQuery : String) (now : DateTime),
        (if body.OwnerEmail = "" then emailQuery else body.OwnerEmail) ≠ "" →
        UpdateProperty s idS (some body) emailQuery now =
          (⟨403, .error "You cannot update a property that doesn't belong to you"⟩, s)) ∧
      (∀ (emailQuery : String) (body : Option Property) (email : String),
        emailFromQueryOrBody emailQuery body = some email → email ≠ "" →
        DeleteProperty s idS emailQuery body =
          (⟨403, .error "You cannot delete a property that doesn't belong to you"⟩, s))) := by
  refine ⟨?_, ?_, ?_⟩
  · intro email input newID now1 now2 he hnone
    simp [CreateProperty, CreatePropertyWith, he, hnone]
  · intro email hnone
    refine ⟨?_, ?_, ?_, ?_, ?_, ?_⟩
    · simp [GetUserByEmail, hnone]
    · simp [GetLikedProperties, hnone]
    · simp [GetPostedProperties, hnone]
    · intro he
      simp [GetLikedPropertiesByUser, he, hnone]
    · intro he body
      simp [GetHomescreenProperties, he, homescreenFor, hnone]
    · intro body hb
      subst hb
      simp [GetHomescreenProperties, homescreenFor, hnone]
  · intro idS pid hp hnone
    constructor
    · intro body emailQuery now he
      simp only [UpdateProperty, UpdatePropertyWith, callFails_nil, found_false, hp, hnone]
      rw [if_neg he]
    · intro emailQuery body email hem he
      simp only [DeleteProperty, DeletePropertyWith, callFails_nil, found_false, hp, hem, hnone]
      rw [if_neg he]

/-- C15, amended, at the empty store: no user has the email `u@x.io` and
`GetUserByEmail` answers 404 where `GetHomescreenProperties` answers 500. -/
theorem absent_document_statuses_witness :
    Store.empty.findOneUser (emailIs "u@x.io") = none ∧
    GetUserByEmail Store.empty "u@x.io" = ⟨404, .error "User not found"⟩ ∧
    GetHomescreenProperties Store.empty "u@x.io" none =
      ⟨500, .error "Failed to fetch user details"⟩ :=
  ⟨rfl, ((absent_document_statuses Store.empty).2.1 "u@x.io" rfl).1,
    ((absent_document_statuses Store.empty).2.1 "u@x.io" rfl).2.2.2.2.1 (by decide) none⟩

/-! ## Rented properties of a user -/

/-- C16, as stated, fails: after the owner accepts user 3 and then user 4 for
property 2, the document of user 3 still lists the property in
`rented_properties`, so the lookup through the user document yields it, and
`GetRentedPropertiesByUser` returns nothing for user 3. -/
theorem GetRentedPropertiesByUser_differs_from_user_document :
    ((run Store.empty twoRentersTrace).findOneUser (userIdIs 3)).map
        (fun u => u.rented_properties) = some [2] ∧
    (rentedPropertiesOfUserDocument (run Store.empty twoRentersTrace) 3).map
        (fun p => p.ID) = [2] ∧
    GetRentedPropertiesByUser (run Store.empty twoRentersTrace) "000000000000000000000003" =
      ⟨200, .properties []⟩ := by
  decide

/-- For an id that parses, `GetRentedPropertiesByUser` answers 200 with the
stored properties whose `rented_by_id` is that id, in store order. -/
theorem GetRentedPropertiesByUser_by_rented_by_id (s : Store) (userID : String)
    (objectID : ObjectID) (h : ObjectIDFromHex userID = some objectID) :
    GetRentedPropertiesByUser s userID =
      ⟨200, .properties
        ((s.properties.filter (fun d => decide (d.rented_by_id = some objectID))).map
          decodeProperty)⟩ := by
  have h0 := ObjectIDFromHex_ne_empty h
  simp [GetRentedPropertiesByUser, h0, h, Store.findProperties]

/-- C16, amended: for a stored user whose `rented_properties` and the stored
properties' `rented_by_id` agree, that is, a stored property's id is in the
user's `rented_properties` exactly when the property's `rented_by_id` is the
user's id, `GetRentedPropertiesByUser` answers 200 with the lookup through
the user document: exactly the stored properties whose id is a member of the
user's `rented_properties`, in store order. -/
theorem GetRentedPropertiesByUser_of_agreement (s : Store) (userID : String)
    (objectID : ObjectID) (u : UserDoc)
    (hid : ObjectIDFromHex userID = some objectID)
    (hu : s.findOneUser (userIdIs objectID) = some u)
    (hagree : ∀ d ∈ s.properties,
      (d._id ∈ u.rented_properties ↔ d.rented_by_id = some objectID)) :
    GetRentedPropertiesByUser s userID =
      ⟨200, .properties (rentedPropertiesOfUserDocument s objectID)⟩ ∧
    rentedPropertiesOfUserDocument s objectID =
      (s.properties.filter (fun d => decide (d._id ∈ u.rented_properties))).map
        decodeProperty := by
  have hspec : rentedPropertiesOfUserDocument s objectID =
      (s.properties.filter (fun d => decide (d._id ∈ u.rented_properties))).map
        decodeProperty := by
    simp only [rentedPropertiesOfUserDocument, hu, Store.findProperties]
    rfl
  refine ⟨?_, hspec⟩
  rw [GetRentedPropertiesByUser_by_rented_by_id s userID objectID hid, hspec]
  have hfilter : s.properties.filter (fun d => decide (d.rented_by_id = some objectID)) =
      s.properties.filter (fun d => decide (d._id ∈ u.rented_properties)) := by
    apply List.filter_congr
    intro d hd
    exact decide_eq_decide.mpr (hagree d hd).symm
  rw [hfilter]

/-- C16, amended, after two accepts, for user 4, the renter the property
names: the document of user 4 lists property 2, the two sides agree, and the
handler returns the one property the document lists. -/
theorem GetRentedPropertiesByUser_of_agreement_witness :
    ObjectIDFromHex "000000000000000000000004" = some 4 ∧
    (run Store.empty twoRentersTrace).findOneUser (userIdIs 4) =
      some { sampleUser 4 "v@x.io" [] with rented_properties := [2] } ∧
    (∀ d ∈ (run Store.empty twoRentersTrace).properties,
      (d._id ∈ [2] ↔ d.rented_by_id = some 4)) ∧
    (rentedPropertiesOfUserDocument (run Store.empty twoRentersTrace) 4).map
      (fun p => p.ID) = [2] ∧
    GetRentedPropertiesByUser (run Store.empty twoRentersTrace) "000000000000000000000004" =
      ⟨200, .properties (rentedPropertiesOfUserDocument (run Store.empty twoRentersTrace) 4)⟩ :=
  ⟨by decide, by decide, by decide, by decide,
    (GetRentedPropertiesByUser_of_agreement (run Store.empty twoRentersTrace)
      "000000000000000000000004" 4 { sampleUser 4 "v@x.io" [] with rented_properties := [2] }
      (by decide) (by decide) (by decide)).1⟩

/-! ## Request, then reject -/

theorem pull_addToSet {α : Type} [DecidableEq α] (a : α) (l : List α) (h : a ∉ l) :
    pull a (addToSet a l) = l := by
  unfold addToSet pull
  rw [if_neg h, List.filter_append]
  have hl : l.filter (fun x => decide (x ≠ a)) = l := by
    rw [List.filter_eq_self]
    intro x hx
    have : x ≠ a := by
      intro hxa
      exact h (hxa ▸ hx)
    simpa using this
  rw [hl]
  simp

theorem updateFirst_comp {α : Type} (p : α → Bool) (f g : α → α)
    (hp : ∀ x, p (f x) = p x) (l : List α) :
    updateFirst p g (updateFirst p f l) = updateFirst p (fun x => g (f x)) l := by
  induction l with
  | nil => rfl
  | cons x xs ih =>
    by_cases hx : p x = true
    · simp [updateFirst, hx, hp]
    · simp [updateFirst, hx, ih]

theorem updateFirst_congr_find {α : Type} (p : α → Bool) (f g : α → α) (l : List α) (d : α)
    (hd : l.find? p = some d) (hfg : f d = g d) : updateFirst p f l = updateFirst p g l := by
  induction l with
  | nil => rfl
  | cons x xs ih =>
    by_cases hx : p x = true
    · have hxd : x = d := by simpa [List.find?, hx] using hd
      subst hxd
      simp [updateFirst, hx, hfg]
    · have hd2 : xs.find? p = some d := by simpa [List.find?, hx] using hd
      simp [updateFirst, hx, ih hd2]

theorem updateFirst_self {α : Type} (p : α → Bool) (l : List α) :
    updateFirst p (fun x => x) l = l := by
  induction l with
  | nil => rfl
  | cons x xs ih =>
    by_cases hx : p x = true
    · simp [updateFirst, hx]
    · simp [updateFirst, hx, ih]

/-- C17: for a stored property and a stored user with the pair in neither
`rental_requests`, `RequestToRentProperty` followed by `HandleRentalRequest`
with "reject" succeeds twice and returns the store it started from, up to
the `rental_requests` field of that property, which is present afterwards
with the members it had: the user document and every other document are as
before and nothing records the rejection. -/
theorem RequestToRentProperty_then_reject (s : Store) (pidS uidS : String) (pid uid : ObjectID)
    (d : PropertyDoc) (u : UserDoc)
    (hp : ObjectIDFromHex pidS = some pid) (hu : ObjectIDFromHex uidS = some uid)
    (hd : s.findOneProperty (propertyIdIs pid) = some d)
    (hud : s.findOneUser (userIdIs uid) = some u)
    (h1 : uid ∉ d.requests) (h2 : pid ∉ u.rental_requests) :
    (RequestToRentProperty s pidS uidS).1 = ⟨200, .message "Rental request sent"⟩ ∧
    HandleRentalRequest (RequestToRentProperty s pidS uidS).2 pidS uidS "reject" =
      (⟨200, .message "Rental request rejected"⟩,
        ⟨s.users, updateFirst (propertyIdIs pid)
          (fun x => { x with rental_requests := some x.requests }) s.properties⟩) ∧
    (HandleRentalRequest (RequestToRentProperty s pidS uidS).2 pidS uidS
        "reject").2.findOneUser (userIdIs uid) = some u ∧
    (HandleRentalRequest (RequestToRentProperty s pidS uidS).2 pidS uidS
        "reject").2.findOneProperty (propertyIdIs pid) =
      some { d with rental_requests := some d.requests } ∧
    ({ d with rental_requests := some d.requests } : PropertyDoc).requests = d.requests := by
  have hp0 := ObjectIDFromHex_ne_empty hp
  have hu0 := ObjectIDFromHex_ne_empty hu
  have hreq : RequestToRentProperty s pidS uidS =
      (⟨200, .message "Rental request sent"⟩,
        { users := updateFirst (userIdIs uid)
            (fun u => { u with rental_requests := addToSet pid u.rental_requests }) s.users,
          properties := updateFirst (propertyIdIs pid)
            (fun d => { d with rental_requests := some (addToSet uid d.requests) })
            s.properties }) := by
    simp [RequestToRentProperty, RequestToRentPropertyWith, hp, hu, hp0, hu0,
      Store.updateOneProperty,
      Store.updateOneUser]
  have hrej : ∀ t : Store, HandleRentalRequest t pidS uidS "reject" =
      (⟨200, .message "Rental request rejected"⟩,
        { users := updateFirst (userIdIs uid)
              (fun d => { d with rental_requests := pull pid d.rental_requests }) t.users,
          properties := updateFirst (propertyIdIs pid)
              (fun d => { d with rental_requests := d.rental_requests.map (pull uid) })
              t.properties }) := by
    intro t
    simp [HandleRentalRequest, HandleRentalRequestWith, hp, hu, hp0, hu0, Store.updateOneProperty,
      Store.updateOneUser]
  have husers : updateFirst (userIdIs uid)
      (fun d => { d with rental_requests := pull pid d.rental_requests })
      (updateFirst (userIdIs uid)
        (fun u => { u with rental_requests := addToSet pid u.rental_requests }) s.users) =
      s.users := by
    rw [updateFirst_comp _ _ _ (by intro x; rfl),
      updateFirst_congr_find _ _ (fun x => x) _ u hud (by simp [pull_addToSet _ _ h2]),
      updateFirst_self]
  have hprops : updateFirst (propertyIdIs pid)
      (fun d => { d with rental_requests := d.rental_requests.map (pull uid) })
      (updateFirst (propertyIdIs pid)
        (fun d => { d with rental_requests := some (addToSet uid d.requests) })
        s.properties) =
      updateFirst (propertyIdIs pid)
        (fun x => { x with rental_requests := some x.requests }) s.properties := by
    rw [updateFirst_comp _ _ _ (by intro x; rfl)]
    exact updateFirst_congr_find _ _ _ _ d hd (by simp [pull_addToSet _ _ h1])
  have hboth : HandleRentalRequest (RequestToRentProperty s pidS uidS).2 pidS uidS "reject" =
      (⟨200, .message "Rental request rejected"⟩,
        ⟨s.users, updateFirst (propertyIdIs pid)
          (fun x => { x with rental_requests := some x.requests }) s.properties⟩) := by
    rw [hreq, hrej, husers, hprops]
  rw [hboth]
  refine ⟨by rw [hreq], rfl, hud, ?_, rfl⟩
  unfold Store.findOneProperty at hd ⊢
  rw [find?_updateFirst_self _ _ (by intro x; rfl), hd]
  rfl

/-- C17 at the store of `postedTrace`: the owner, user 1, requests property 2
and is rejected, and the user document is as before. -/
theorem RequestToRentProperty_then_reject_witness :
    ObjectIDFromHex "000000000000000000000002" = some 2 ∧
    ObjectIDFromHex "000000000000000000000001" = some 1 ∧
    (HandleRentalRequest
        (RequestToRentProperty (run Store.empty postedTrace) "000000000000000000000002"
          "000000000000000000000001").2
        "000000000000000000000002" "000000000000000000000001" "reject").2.findOneUser
          (userIdIs 1) =
      (run Store.empty postedTrace).findOneUser (userIdIs 1) :=
  ⟨by decide, by decide,
    (RequestToRentProperty_then_reject (run Store.empty postedTrace)
      "000000000000000000000002" "000000000000000000000001" 2 1 _ _ (by decide) (by decide)
      rfl rfl (by decide) (by decide)).2.2.1⟩

/-- C18: with ids that parse, every action that is neither empty nor exactly
"accept" gets the response and the store of a reject: 200 with "Rental request
rejected", the pair pulled from both `rental_requests`, and `is_rented`,
`rented_by_id` and the renter's `rented_properties` as they were. -/
theorem HandleRentalRequest_other_action_rejects (s : Store) (pidS ridS action : String)
    (pid rid : ObjectID)
    (hp : ObjectIDFromHex pidS = some pid) (hr : ObjectIDFromHex ridS = some rid)
    (ha : action ≠ "") (hna : action ≠ "accept") :
    HandleRentalRequest s pidS ridS action = HandleRentalRequest s pidS ridS "reject" ∧
    HandleRentalRequest s pidS ridS action =
      (⟨200, .message "Rental request rejected"⟩,
        ⟨updateFirst (userIdIs rid)
            (fun u => { u with rental_requests := pull pid u.rental_requests }) s.users,
          updateFirst (propertyIdIs pid)
            (fun d => { d with rental_requests := d.rental_requests.map (pull rid) })
            s.properties⟩) ∧
    (∀ d, s.findOneProperty (propertyIdIs pid) = some d →
      ∃ d', (HandleRentalRequest s pidS ridS action).2.findOneProperty (propertyIdIs pid)
          = some d' ∧
        d'.requests = pull rid d.requests ∧ d'.is_rented = d.is_rented ∧
        d'.rented_by_id = d.rented_by_id) ∧
    (∀ u, s.findOneUser (userIdIs rid) = some u →
      ∃ u', (HandleRentalRequest s pidS ridS action).2.findOneUser (userIdIs rid) = some u' ∧
        u'.rental_requests = pull pid u.rental_requests ∧
        u'.rented_properties = u.rented_properties) := by
  have hp0 := ObjectIDFromHex_ne_empty hp
  have hr0 := ObjectIDFromHex_ne_empty hr
  have hany : ∀ a : String, a ≠ "" → a ≠ "accept" → HandleRentalRequest s pidS ridS a =
      (⟨200, .message "Rental request rejected"⟩,
        ⟨updateFirst (userIdIs rid)
            (fun u => { u with rental_requests := pull pid u.rental_requests }) s.users,
          updateFirst (propertyIdIs pid)
            (fun d => { d with rental_requests := d.rental_requests.map (pull rid) })
            s.properties⟩) := by
    intro a h1 h2
    simp [HandleRentalRequest, HandleRentalRequestWith, hp, hr, hp0, hr0, h1, h2,
      Store.updateOneProperty,
      Store.updateOneUser]
  refine ⟨?_, hany action ha hna, ?_, ?_⟩
  · rw [hany action ha hna, hany "reject" (by decide) (by decide)]
  · intro d hd
    rw [hany action ha hna]
    unfold Store.findOneProperty at hd ⊢
    simp only
    rw [find?_updateFirst_self _ _ (by intro x; rfl), hd]
    exact ⟨_, rfl, requests_pull d rid, rfl, rfl⟩
  · intro u hu
    rw [hany action ha hna]
    unfold Store.findOneUser at hu ⊢
    simp only
    rw [find?_updateFirst_self _ _ (by intro x; rfl), hu]
    exact ⟨_, rfl, rfl, rfl⟩

/-- C18 at the store where user 3 has requested property 2: "Accept" with a
capital letter is answered as a reject. -/
theorem HandleRentalRequest_other_action_rejects_witness :
    ObjectIDFromHex "000000000000000000000002" = some 2 ∧
    ObjectIDFromHex "000000000000000000000003" = some 3 ∧ "Accept" ≠ "" ∧
    "Accept" ≠ "accept" ∧
    HandleRentalRequest requestedStore "000000000000000000000002"
        "000000000000000000000003" "Accept" =
      HandleRentalRequest requestedStore "000000000000000000000002"
        "000000000000000000000003" "reject" :=
  ⟨by decide, by decide, by decide, by decide,
    (HandleRentalRequest_other_action_rejects requestedStore "000000000000000000000002"
      "000000000000000000000003" "Accept" 2 3 (by decide) (by decide) (by decide)
      (by decide)).1⟩

/-! ## What an update writes -/

/-- C19: after an `UpdateProperty` call that answers 200 for a stored
property, at a time other than the zero `DateTime`, the stored `title`,
`description`, `price`, `location`, `owner_email`, `owner_name`, `owner_pic`
and `is_rented` are the body's values, `updated_at` is the time of the call,
each of `rental_requests`, `liked_by`, `thumbnail`, `pictures`,
`rented_by_email` and `created_at` keeps its stored value when the body leaves
it empty, and `rented_by_id` and `_id` keep theirs in any case. -/
theorem UpdateProperty_written_fields (s : Store) (idS : String) (body : Property)
    (emailQuery : String) (now : DateTime) (pid : ObjectID) (d : PropertyDoc)
    (hp : ObjectIDFromHex idS = some pid)
    (hd : s.findOneProperty (propertyIdIs pid) = some d)
    (hnow : now ≠ 0)
    (hok : (UpdateProperty s idS (some body) emailQuery now).1.status = 200) :
    ∃ d', (UpdateProperty s idS (some body) emailQuery now).2.findOneProperty
        (propertyIdIs pid) = some d' ∧
      d'.title = body.Title ∧ d'.description = body.Description ∧ d'.price = body.Price ∧
      d'.location = body.Location ∧ d'.owner_email = body.OwnerEmail ∧
      d'.owner_name = body.OwnerName ∧ d'.owner_pic = body.OwnerPic ∧
      d'.is_rented = body.IsRented ∧ d'.updated_at = now ∧
      (body.RentalRequests = [] → d'.rental_requests = d.rental_requests) ∧
      (body.LikedBy = [] → d'.liked_by = d.liked_by) ∧
      (body.Thumbnail = "" → d'.thumbnail = d.thumbnail) ∧
      (body.Pictures = [] → d'.pictures = d.pictures) ∧
      (body.RentedByEmail = "" → d'.rented_by_email = d.rented_by_email) ∧
      (body.CreatedAt = 0 → d'.created_at = d.created_at) ∧
      d'.rented_by_id = d.rented_by_id ∧ d'._id = d._id := by
  have hstore : (UpdateProperty s idS (some body) emailQuery now).2 =
      ⟨s.users, updateFirst (propertyIdIs pid)
        (setProperty { body with UpdatedAt := now }) s.properties⟩ := by
    by_cases he : (if body.OwnerEmail = "" then emailQuery else body.OwnerEmail) = ""
    · simp [UpdateProperty, UpdatePropertyWith, hp, he] at hok
    · by_cases hown : d.owner_email =
          (if body.OwnerEmail = "" then emailQuery else body.OwnerEmail)
      · by_cases himm : body.ID ≠ 0 ∧ body.ID ≠ pid
        · simp [UpdateProperty, UpdatePropertyWith, hp, hd, he, decodeProperty, hown,
          Store.setOneProperty,
            himm] at hok
        · have himm2 : ¬(body.ID ≠ 0 ∧ body.ID ≠ pid ∧
              (s.findOneProperty (propertyIdIs pid)).isSome = true) := by
            intro h; exact himm ⟨h.1, h.2.1⟩
          simp only [UpdateProperty, UpdatePropertyWith, callFails_nil, found_false, hp, hd, he,
            if_false, decodeProperty,
            hown, ne_eq, not_true_eq_false, Store.setOneProperty, Store.updateOneProperty,
            callFails_nil, Bool.false_eq_true]
          rw [if_neg (by simpa [hd] using himm2)]
      · simp [UpdateProperty, UpdatePropertyWith, hp, hd, he, decodeProperty, hown] at hok
  rw [hstore]
  unfold Store.findOneProperty at hd ⊢
  simp only
  rw [find?_updateFirst_self _ _ (by intro x; rfl), hd]
  refine ⟨_, rfl, rfl, rfl, rfl, rfl, rfl, rfl, rfl, rfl, ?_, ?_, ?_, ?_, ?_, ?_, ?_, rfl,
    rfl⟩
  · simp [setProperty, hnow]
  · intro h; simp [setProperty, h]
  · intro h; simp [setProperty, h]
  · intro h; simp [setProperty, h]
  · intro h; simp [setProperty, h]
  · intro h; simp [setProperty, h]
  · intro h; simp [setProperty, h]

/-- C19 at the store of `postedTrace`: the owner renames property 2 with a
body that names the owner and nothing else; the call answers 200, the price
becomes the body's zero and the creation time stays. -/
theorem UpdateProperty_written_fields_witness :
    ObjectIDFromHex "000000000000000000000002" = some 2 ∧
    (run Store.empty postedTrace).findOneProperty (propertyIdIs 2) =
      some { sampleProperty 2 "o@x.io" "Austin" 100 with title := "flat" } ∧
    (5 : DateTime) ≠ 0 ∧
    (UpdateProperty (run Store.empty postedTrace) "000000000000000000000002"
        (some { Property.zero with Title := "loft", OwnerEmail := "o@x.io" }) ""
        5).1.status = 200 ∧
    ∃ d', (UpdateProperty (run Store.empty postedTrace) "000000000000000000000002"
        (some { Property.zero with Title := "loft", OwnerEmail := "o@x.io" }) ""
        5).2.findOneProperty (propertyIdIs 2) = some d' ∧
      d'.title = "loft" ∧ d'.price = 0 ∧ d'.is_rented = false ∧ d'.updated_at = 5 :=
  ⟨by decide, by decide, by decide, by decide,
    (UpdateProperty_written_fields (run Store.empty postedTrace) "000000000000000000000002"
      { Property.zero with Title := "loft", OwnerEmail := "o@x.io" } "" 5 2
      { sampleProperty 2 "o@x.io" "Austin" 100 with title := "flat" }
      (by decide) (by decide) (by decide) (by decide)).imp
      (fun _ h => ⟨h.1, h.2.1, h.2.2.2.1, h.2.2.2.2.2.2.2.2.1, h.2.2.2.2.2.2.2.2.2.1⟩)⟩

/-! ## Validation of the rental parameters -/

theorem hexDecode_eq_none_iff (cs : List Char) (acc : Nat) :
    hexDecode cs acc = none ↔ ∃ c ∈ cs, hexDigit c = none := by
  induction cs generalizing acc with
  | nil => simp [hexDecode]
  | cons c cs ih =>
    cases hc : hexDigit c with
    | none => simp [hexDecode, hc]
    | some v => simp [hexDecode, hc, ih]

/-- `primitive.ObjectIDFromHex` fails exactly on a string that is not 24 bytes
long or holds a character that is not a hexadecimal digit. -/
theorem ObjectIDFromHex_eq_none_iff (s : String) :
    ObjectIDFromHex s = none ↔ s.utf8ByteSize ≠ 24 ∨ ∃ c ∈ s.data, hexDigit c = none := by
  unfold ObjectIDFromHex
  by_cases h : s.utf8ByteSize = 24
  · simp [h, hexDecode_eq_none_iff]
  · simp [h]

/-- C20: `RequestToRentProperty` and `HandleRentalRequest` answer 400 and
return the store as it was when a required parameter is empty or an id does
not parse as an object id; whenever they answer anything but 400, and so
whenever they reach a store write, both ids have parsed. -/
theorem rental_handlers_validate_first (s : Store) (pidS uidS action : String) :
    ((pidS = "" ∨ uidS = "" ∨ ObjectIDFromHex pidS = none ∨ ObjectIDFromHex uidS = none) →
      (RequestToRentProperty s pidS uidS).1.status = 400 ∧
      (RequestToRentProperty s pidS uidS).2 = s) ∧
    ((pidS = "" ∨ uidS = "" ∨ action = "" ∨ ObjectIDFromHex pidS = none ∨
        ObjectIDFromHex uidS = none) →
      (HandleRentalRequest s pidS uidS action).1.status = 400 ∧
      (HandleRentalRequest s pidS uidS action).2 = s) ∧
    (((RequestToRentProperty s pidS uidS).1.status ≠ 400 ∨
        (RequestToRentProperty s pidS uidS).2 ≠ s) →
      ∃ pid uid, ObjectIDFromHex pidS = some pid ∧ ObjectIDFromHex uidS = some uid) ∧
    (((HandleRentalRequest s pidS uidS action).1.status ≠ 400 ∨
        (HandleRentalRequest s pidS uidS action).2 ≠ s) →
      action ≠ "" ∧
      ∃ pid uid, ObjectIDFromHex pidS = some pid ∧ ObjectIDFromHex uidS = some uid) := by
  have hreq : (pidS = "" ∨ uidS = "" ∨ ObjectIDFromHex pidS = none ∨
      ObjectIDFromHex uidS = none) →
      (RequestToRentProperty s pidS uidS).1.status = 400 ∧
      (RequestToRentProperty s pidS uidS).2 = s := by
    intro h
    by_cases hempty : pidS = "" ∨ uidS = ""
    · simp [RequestToRentProperty, RequestToRentPropertyWith, hempty]
    · cases hp : ObjectIDFromHex pidS with
      | none => simp [RequestToRentProperty, RequestToRentPropertyWith, hempty, hp]
      | some pid =>
        cases hu : ObjectIDFromHex uidS with
        | none => simp [RequestToRentProperty, RequestToRentPropertyWith, hempty, hp, hu]
        | some uid =>
          rcases h with h | h | h | h
          · exact absurd (Or.inl h) hempty
          · exact absurd (Or.inr h) hempty
          · rw [hp] at h; cases h
          · rw [hu] at h; cases h
  have hres : (pidS = "" ∨ uidS = "" ∨ action = "" ∨ ObjectIDFromHex pidS = none ∨
      ObjectIDFromHex uidS = none) →
      (HandleRentalRequest s pidS uidS action).1.status = 400 ∧
      (HandleRentalRequest s pidS uidS action).2 = s := by
    intro h
    by_cases hempty : pidS = "" ∨ uidS = "" ∨ action = ""
    · simp [HandleRentalRequest, HandleRentalRequestWith, hempty]
    · cases hp : ObjectIDFromHex pidS with
      | none => simp [HandleRentalRequest, HandleRentalRequestWith, hempty, hp]
      | some pid =>
        cases hu : ObjectIDFromHex uidS with
        | none => simp [HandleRentalRequest, HandleRentalRequestWith, hempty, hp, hu]
        | some uid =>
          rcases h with h | h | h | h | h
          · exact absurd (Or.inl h) hempty
          · exact absurd (Or.inr (Or.inl h)) hempty
          · exact absurd (Or.inr (Or.inr h)) hempty
          · rw [hp] at h; cases h
          · rw [hu] at h; cases h
  refine ⟨hreq, hres, ?_, ?_⟩
  · intro h
    cases hp : ObjectIDFromHex pidS with
    | none =>
      have := hreq (Or.inr (Or.inr (Or.inl hp)))
      rcases h with h | h
      · exact absurd this.1 h
      · exact absurd this.2 h
    | some pid =>
      cases hu : ObjectIDFromHex uidS with
      | none =>
        have := hreq (Or.inr (Or.inr (Or.inr hu)))
        rcases h with h | h
        · exact absurd this.1 h
        · exact absurd this.2 h
      | some uid => exact ⟨pid, uid, rfl, rfl⟩
  · intro h
    have hact : action ≠ "" := by
      intro ha
      have := hres (Or.inr (Or.inr (Or.inl ha)))
      rcases h with h | h
      · exact absurd this.1 h
      · exact absurd this.2 h
    refine ⟨hact, ?_⟩
    cases hp : ObjectIDFromHex pidS with
    | none =>
      have := hres (Or.inr (Or.inr (Or.inr (Or.inl hp))))
      rcases h with h | h
      · exact absurd this.1 h
      · exact absurd this.2 h
    | some pid =>
      cases hu : ObjectIDFromHex uidS with
      | none =>
        have := hres (Or.inr (Or.inr (Or.inr (Or.inr hu))))
        rcases h with h | h
        · exact absurd this.1 h
        · exact absurd this.2 h
      | some uid => exact ⟨pid, uid, rfl, rfl⟩

/-- C20 at the store where user 3 has requested property 2: an id of 23
characters, an id with a letter that is no hexadecimal digit and an empty
action are refused with 400 and the store stays. -/
theorem rental_handlers_validate_first_witness :
    ObjectIDFromHex "00000000000000000000002" = none ∧
    ObjectIDFromHex "00000000000000000000000g" = none ∧
    RequestToRentProperty requestedStore "00000000000000000000002"
        "000000000000000000000003" =
      (⟨400, .error "Invalid property ID"⟩, requestedStore) ∧
    (HandleRentalRequest requestedStore "000000000000000000000002"
        "00000000000000000000000g" "accept").2 = requestedStore ∧
    (HandleRentalRequest requestedStore "000000000000000000000002"
        "000000000000000000000003" "").1.status = 400 :=
  ⟨by decide, by decide, by decide,
    ((rental_handlers_validate_first requestedStore "000000000000000000000002"
      "00000000000000000000000g" "accept").2.1
        (Or.inr (Or.inr (Or.inr (Or.inr (by decide)))))).2,
    ((rental_handlers_validate_first requestedStore "000000000000000000000002"
      "000000000000000000000003" "").2.1 (Or.inr (Or.inr (Or.inl rfl)))).1⟩

end Dwello
